import Mathlib

/-!
Verification of the Zynq-7000 register catalog / write-list compiler
(`zynq7000_register_names.py`).

The Python source is shallowly embedded: Python ints become `Nat`
(arbitrary precision, matching Python semantics), Python lists become
`List`, in-place mutation becomes explicit state passing, and code paths
that raise an exception (a failed `assert`, an `IndexError`) are modelled
by `Option`, with `none` standing for the raised exception.
-/

set_option maxRecDepth 8192

namespace GenZ

/-- Reset values in the static table are either numeric literals or
placeholder strings such as "x"; this mirrors the mixed Python field. -/
inductive RVal where
  | num (n : Nat)
  | str (s : String)
deriving DecidableEq, Repr

/-- Mirrors class `Entry`: a register descriptor.  `fields` mirrors the
`self.fields` dict (insertion-ordered, keyed by upper-cased field name). -/
structure Entry where
  name : String
  addr : Nat
  width : Nat
  tp : String
  reset : RVal
  description : String
  fields : List (String × Nat)
deriving DecidableEq, Repr

/-- Python `str.lower()` (per-character, matching ASCII use here); written
over the character list so that it evaluates inside the kernel. -/
def strLower (s : String) : String := String.mk (s.data.map Char.toLower)

/-- Python `str.upper()` (per-character, matching ASCII use here). -/
def strUpper (s : String) : String := String.mk (s.data.map Char.toUpper)

/-- Dict-style update used by `Entry.add_field`: overwrite the value at an
existing key in place, else append the pair (Python dict semantics). -/
def updateAssoc (fs : List (String × Nat)) (k : String) (v : Nat) : List (String × Nat) :=
  if fs.any (fun p => p.1 == k) then
    fs.map (fun p => if p.1 == k then (k, v) else p)
  else fs ++ [(k, v)]

/-- Dict-style lookup: first pair with the given key. -/
def findAssoc : List (String × Nat) → String → Option Nat
  | [], _ => none
  | p :: ps, k => if p.1 == k then some p.2 else findAssoc ps k

/-- Mirrors `Entry.add_field`: `self.fields[field.upper()] = mask`. -/
def Entry.add_field (e : Entry) (field : String) (mask : Nat) : Entry :=
  { e with fields := updateAssoc e.fields (strUpper field) mask }

/-- Mirrors `Entry.get_field_mask`: `self.fields[field.upper()]`, with the
`KeyError` handler returning `0x0` when the field is absent. -/
def Entry.get_field_mask (e : Entry) (field : String) : Nat :=
  (findAssoc e.fields (strUpper field)).getD 0

/-- Mirrors class `BaseRegister`: one register block. -/
structure BaseRegister where
  name : String
  baseaddrs : List Nat
  entries : List Entry
  basemask : Nat
  highaddr : Nat
deriving DecidableEq, Repr

/-- Constructor call `BaseRegister(baseaddrs, entries, name=...)` with the
default `basemask=0xFFFFF000` and `highaddr = basemask ^ 0xFFFFFFFF`
(all the blocks in the static table use the defaults). -/
def mkBaseRegister (baseaddrs : List Nat) (entries : List Entry) (name : String) :
    BaseRegister :=
  { name := name, baseaddrs := baseaddrs, entries := entries,
    basemask := 0xFFFFF000, highaddr := 0xFFFFF000 ^^^ 0xFFFFFFFF }

/-- Entry-row helper for the static table below (positional `Entry(...)`
constructor call; `fields` starts as the empty dict). -/
def mkE (name : String) (addr width : Nat) (tp : String) (reset : RVal)
    (description : String) : Entry :=
  { name := name, addr := addr, width := width, tp := tp, reset := reset,
    description := description, fields := [] }

/-- Mirrors `BaseRegister.abelong`: true iff some base address equals
`addr & basemask`. -/
def BaseRegister.abelong (br : BaseRegister) (addr : Nat) : Bool :=
  br.baseaddrs.any (fun baddr => baddr == (addr &&& br.basemask))

/-- Mirrors `BaseRegister.n2e`: first entry whose lower-cased name matches,
else `None` (the diagnostic print is ignored by the model). -/
def BaseRegister.n2e (br : BaseRegister) (entry : String) : Option Entry :=
  br.entries.find? (fun e => strLower e.name == strLower entry)

/-- Mirrors `BaseRegister.a2e`: `None` unless the address decodes into the
block; otherwise the first entry `e` with `e.addr + baddr == addr` for some
base address `baddr`, else `None`. -/
def BaseRegister.a2e (br : BaseRegister) (addr : Nat) : Option Entry :=
  if br.abelong addr then
    br.entries.find? (fun e => br.baseaddrs.any (fun baddr => e.addr + baddr == addr))
  else none

/-- In-place mutation of the entry returned by `a2e`: rebuild the entry
list with `add_field` applied to the first entry matched by the `a2e` scan. -/
def attachFirst (p : Entry → Bool) (field : String) (mask : Nat) :
    List Entry → List Entry
  | [] => []
  | e :: es => if p e then e.add_field field mask :: es
               else e :: attachFirst p field mask es

/-- Mirrors `BaseRegister.update_entry_field`: look up the entry at
`entryaddr` via `a2e`; on success attach the field to it (in the Python the
entry object is mutated; here the block is rebuilt) and return `True`,
else return `False` with the block unchanged. -/
def BaseRegister.update_entry_field (br : BaseRegister) (entryaddr : Nat)
    (fieldname : String) (fieldmask : Nat) : Bool × BaseRegister :=
  match br.a2e entryaddr with
  | some _ =>
      let es := attachFirst
        (fun e => br.baseaddrs.any (fun baddr => e.addr + baddr == entryaddr))
        fieldname fieldmask br.entries
      (true, { br with entries := es })
  | none => (false, br)

/-- Mirrors class `Zynq7_AllRegisters`. -/
structure Zynq7AllRegisters where
  inited : Bool
  baseregisters : List BaseRegister
deriving DecidableEq, Repr

/-- Loop body of `Zynq7_AllRegisters.insert`: find the first block that
`abelong`s the address, run `update_entry_field` on it (note: the source
DISCARDS its boolean result) and stop.  `none` means no block matched. -/
def insertBlocks (addr : Nat) (fieldname : String) (fieldmask : Nat) :
    List BaseRegister → Option (List BaseRegister)
  | [] => none
  | br :: brs =>
      if br.abelong addr then
        some ((br.update_entry_field addr fieldname fieldmask).2 :: brs)
      else (insertBlocks addr fieldname fieldmask brs).map (fun l => br :: l)

/-- Mirrors `Zynq7_AllRegisters.insert`: `True` as soon as some block owns
the address (whether or not a descriptor was found there), `False` when no
block owns it. -/
def Zynq7AllRegisters.insert (z : Zynq7AllRegisters) (addr : Nat)
    (fieldname : String) (fieldmask : Nat) : Bool × Zynq7AllRegisters :=
  match insertBlocks addr fieldname fieldmask z.baseregisters with
  | some brs => (true, { z with baseregisters := brs })
  | none => (false, z)

/-- Mirrors the instance-digit handling at the top of `find`:
`basereg[-1] in ['0','1']` strips the digit and selects the instance.
`none` models the `IndexError` raised by `basereg[-1]` on an empty name. -/
def stripDigit (s : String) : Option (Nat × String) :=
  match s.data.getLast? with
  | none => none
  | some c =>
      if c = '0' then some (0, String.mk s.data.dropLast)
      else if c = '1' then some (1, String.mk s.data.dropLast)
      else some (0, s)

/-- Block scan of `find`: the loop keeps the LAST block whose lower-cased
name matches (no break in the source). -/
def lookupBlock (z : Zynq7AllRegisters) (basereg : String) : Option BaseRegister :=
  z.baseregisters.foldl
    (fun acc br => if strLower basereg == strLower br.name then some br else acc) none

/-- Mirrors `Zynq7_AllRegisters.find`.  Outer `none` models an uncaught
exception (empty block name, or instance index out of range when reading
`br.baseaddrs[idx]`); `some none` models the failure sentinel
`(None, None)`; `some (some (addr, mask))` is the success tuple.  The
The `if mask == None` branch of the source is unreachable because
`get_field_mask` always returns an int (0 for an absent field), so it has
no counterpart here. -/
def find (z : Zynq7AllRegisters) (basereg entry field : String) :
    Option (Option (Nat × Nat)) :=
  match stripDigit basereg with
  | none => none
  | some (idx, name) =>
    match lookupBlock z name with
    | none => some none
    | some br =>
      match br.n2e entry with
      | none => some none
      | some e =>
        let mask := e.get_field_mask field
        match br.baseaddrs[idx]? with
        | none => none
        | some b => some (some (b + e.addr, mask))

/-- Provenance tuple `(basereg, entry, field-or-"fullreg", data)`. -/
abbrev Cmt := String × String × String × Nat

/-- One element of `PS7_InitData.emit_list`:
`(addr, mask, data, poll, [comments])`. -/
structure EmitOp where
  addr : Nat
  mask : Nat
  data : Nat
  poll : Nat
  comments : List Cmt
deriving DecidableEq, Repr

/-- Mirrors `PS7_InitData.add`.  The state is the `emit_list`; the result
pairs the returned boolean with the new list.  Outer `none` propagates an
exception raised inside `find`.  The failure test
`addr == None or (mask == None and not fullreg)` reduces to the first
disjunct because `find` never yields `mask == None`. -/
def add (st : List EmitOp) (z : Zynq7AllRegisters) (basereg entry field : String)
    (data poll fullreg : Nat) : Option (Bool × List EmitOp) :=
  match find z basereg entry field with
  | none => none
  | some none => some (false, st)
  | some (some (addr, mask)) =>
      let op : EmitOp :=
        { addr := addr,
          mask := (if fullreg = 0 then mask else 0xFFFFFFFF),
          data := data, poll := poll,
          comments := [(basereg, entry, (if fullreg = 0 then field else ("fullreg")), data)] }
      some (true, st ++ [op])

/-- Fuel-indexed body of `zeros`; the fuel only forces structural
termination in Lean and is always sufficient (see `zeros_unfold`). -/
def zerosF : Nat → Nat → Option Nat
  | 0, _ => none
  | fuel + 1, m =>
      if m = 0 then none
      else if m % 2 = 1 then some 0
      else (zerosF fuel (m / 2)).map (fun z => z + 1)

/-- Mirrors the helper `zeros(m)`: the index of the lowest set bit of `m`.
`none` models the failed `assert m != 0` (on 0 the assert fires before the
`while` loop could diverge). -/
def zeros (m : Nat) : Option Nat :=
  zerosF m m

/-- Fuel irrelevance: any fuel at least `m` computes the same value. -/
theorem zerosF_congr :
    ∀ fuel1 fuel2 m, m ≤ fuel1 → m ≤ fuel2 → zerosF fuel1 m = zerosF fuel2 m := by
  intro fuel1
  induction fuel1 with
  | zero =>
      intro fuel2 m h1 _
      have hm : m = 0 := Nat.le_zero.mp h1
      subst hm
      cases fuel2 with
      | zero => rfl
      | succ f => simp [zerosF]
  | succ f1 ih =>
      intro fuel2 m h1 h2
      by_cases hm : m = 0
      · subst hm
        cases fuel2 with
        | zero => rfl
        | succ f => simp [zerosF]
      · have hpos : 1 ≤ m := Nat.pos_of_ne_zero hm
        cases fuel2 with
        | zero => omega
        | succ f2 =>
            simp only [zerosF, if_neg hm]
            by_cases hodd : m % 2 = 1
            · simp [hodd]
            · simp only [if_neg hodd]
              have hle1 : m / 2 ≤ f1 := by omega
              have hle2 : m / 2 ≤ f2 := by omega
              rw [ih f2 (m / 2) hle1 hle2]

/-- Unfolding law of `zeros`, matching the Python recursion on `m >> 1`. -/
theorem zeros_unfold (m : Nat) :
    zeros m = if m = 0 then none
              else if m % 2 = 1 then some 0
              else (zeros (m / 2)).map (fun z => z + 1) := by
  cases m with
  | zero => rfl
  | succ k =>
      show zerosF (k + 1) (k + 1) = _
      simp only [zerosF]
      by_cases hodd : (k + 1) % 2 = 1
      · simp [hodd]
      · simp only [if_neg hodd, Nat.succ_ne_zero, if_neg (Nat.succ_ne_zero k)]
        have h1 : (k + 1) / 2 ≤ k := by omega
        rw [zerosF_congr k ((k + 1) / 2) ((k + 1) / 2) h1 (Nat.le_refl _)]
        rfl

/-- Option-valued map over a list, stopping at the first failure: models a
Python loop whose body may raise. -/
def optMap (f : EmitOp → Option EmitOp) : List EmitOp → Option (List EmitOp)
  | [] => some []
  | a :: as =>
      match f a with
      | none => none
      | some b => (optMap f as).map (fun bs => b :: bs)

/-- Shift pass of `merge`: `data << zeros(mask)`. -/
def shiftOp (op : EmitOp) : Option EmitOp :=
  (zeros op.mask).map (fun z => { op with data := op.data <<< z })

/-- Unshift pass of `merge`: `data >> zeros(mask)`. -/
def unshiftOp (op : EmitOp) : Option EmitOp :=
  (zeros op.mask).map (fun z => { op with data := op.data >>> z })

/-- Coalescing step of `merge`: OR the masks and the (shifted) data into
the previous output operation, keeping its address and poll flag, and
concatenate the provenance lists in order. -/
def combine (a b : EmitOp) : EmitOp :=
  { addr := a.addr, mask := a.mask ||| b.mask, data := a.data ||| b.data,
    poll := a.poll, comments := a.comments ++ b.comments }

/-- Coalesce loop of `merge`: `a` is the last element of
`emit_list_merged`, the list argument is the remaining input.  An input
operation is merged into `a` iff it has the same address AND the same poll
flag; otherwise `a` is emitted and the scan restarts from the input. -/
def coalesce (a : EmitOp) : List EmitOp → List EmitOp
  | [] => [a]
  | b :: rest =>
      if b.addr = a.addr ∧ b.poll = a.poll then coalesce (combine a b) rest
      else a :: coalesce b rest

/-- Mirrors `PS7_InitData.merge`: shift the data of every operation up to its
mask position, coalesce adjacent same-address same-poll operations, then
shift each result back down by the low-bit index of its (possibly widened) mask.  `none` models the exceptions: a zero mask in either shift pass
(failed assert in `zeros`), or the `IndexError` of `emit_list[0]` on an
empty list. -/
def merge (l : List EmitOp) : Option (List EmitOp) :=
  match optMap shiftOp l with
  | none => none
  | some [] => none
  | some (a :: rest) => optMap unshiftOp (coalesce a rest)

/-- One hex digit, uppercase for `base := 55`, lowercase for `base := 87`. -/
def hexDigit (base n : Nat) : Char :=
  Char.ofNat (if n % 16 < 10 then 48 + n % 16 else base + n % 16)

/-- Fuel-indexed hex renderer (most significant digit first, no padding);
the fuel only forces structural termination and `n + 1` is always enough. -/
def hexDigitsF (base : Nat) : Nat → Nat → List Char
  | 0, n => [hexDigit base n]
  | fuel + 1, n =>
      if n < 16 then [hexDigit base n]
      else hexDigitsF base fuel (n / 16) ++ [hexDigit base n]

/-- Uppercase hex digits, most significant first (no padding). -/
def hexDigitsU (n : Nat) : List Char :=
  hexDigitsF 55 n n

/-- Python percent-format `%08X`: uppercase hex, zero-padded to at least 8 digits. -/
def hex8 (n : Nat) : String :=
  let ds := hexDigitsU n
  String.mk (List.replicate (8 - ds.length) '0' ++ ds)

/-- Lowercase hex digits, most significant first (no padding). -/
def hexDigitsL (n : Nat) : List Char :=
  hexDigitsF 87 n n

/-- Python `hex(n)` for a nonnegative int: `0x` plus lowercase digits. -/
def pyHex (n : Nat) : String :=
  "0x" ++ String.mk (hexDigitsL n)

/-- Output encodings of `emit`: `fmt.lower() == c` and
`fmt.lower() == tcl` in the source (any other format string makes the
Python loop body a no-op, yielding an empty result; no claim touches that
case, so it is not modelled). -/
inductive Fmt where
  | c
  | tcl
deriving DecidableEq, Repr

/-- Comment lines rendered before one instruction, one per provenance
tuple, in order. -/
def renderComments (fmt : Fmt) (comments : List Cmt) : String :=
  String.join (comments.map (fun c =>
    match fmt with
    | .c => "// " ++ c.1 ++ " " ++ c.2.1 ++ " " ++ c.2.2.1 ++ ": " ++ pyHex c.2.2.2 ++ "\n"
    | .tcl => "puts \x22" ++ c.1 ++ " " ++ c.2.1 ++ " " ++ c.2.2.1 ++ ": " ++ pyHex c.2.2.2 ++ "\x22\n"))

/-- Body of the `emit` loop for one operation: re-shift the data by the low-bit index of the mask and pick the poll / full-write / masked-write form.
The poll branch does not call `zeros`; the other branches do, so `none`
models the failed assert on a zero mask there. -/
def emitOp (fmt : Fmt) (comment : Bool) (op : EmitOp) : Option String :=
  let cs := if comment then renderComments fmt op.comments else ""
  if op.poll ≠ 0 then
    some (cs ++ (match fmt with
      | .c => "EMIT_MASKPOLL(0X" ++ hex8 op.addr ++ ", 0x" ++ hex8 op.mask ++ "U),\n"
      | .tcl => "mask_poll 0X" ++ hex8 op.addr ++ " 0x" ++ hex8 op.mask ++ "\n"))
  else
    (zeros op.mask).map (fun z =>
      if op.mask = 0xFFFFFFFF then
        cs ++ (match fmt with
          | .c => "EMIT_WRITE(0X" ++ hex8 op.addr ++ ", 0x" ++ hex8 (op.data <<< z) ++ "U),\n"
          | .tcl => "mwr -force 0X" ++ hex8 op.addr ++ " 0x" ++ hex8 (op.data <<< z) ++ "\n")
      else
        cs ++ (match fmt with
          | .c => "EMIT_MASKWRITE(0X" ++ hex8 op.addr ++ ", 0x" ++ hex8 op.mask
                  ++ "U, 0x" ++ hex8 (op.data <<< z) ++ "U),\n"
          | .tcl => "mask_write 0X" ++ hex8 op.addr ++ " 0x" ++ hex8 op.mask
                  ++ " 0x" ++ hex8 (op.data <<< z) ++ "\n"))

/-- Mirrors `PS7_InitData.emit`: concatenation of the rendered operations
(the loop accumulates into a string; an exception part-way is `none`). -/
def emit (fmt : Fmt) (comment : Bool) (l : List EmitOp) : Option String :=
  ((l.map (emitOp fmt comment)).foldr
    (fun s acc =>
      match s, acc with
      | some s', some a => some (s' ++ a)
      | _, _ => none) (some ""))


/-!
The static register table (`From UG585 ...` in the source), embedded
verbatim: each `Entry(...)` row becomes a `mkE` row.  `ddrc` is defined in
the source but not included in `zynq7_allregisters`.
-/

def slcr : BaseRegister := mkBaseRegister [0xF8000000] [
  mkE ("SCL") 0x00000000 32 ("rw") (RVal.num 0x00000000) ("Secure Configuration Lock"),
  mkE ("SLCR_LOCK") 0x00000004 32 ("wo") (RVal.num 0x00000000) ("SLCR Write Protection Lock"),
  mkE ("SLCR_UNLOCK") 0x00000008 32 ("wo") (RVal.num 0x00000000) ("SLCR Write Protection Unlock"),
  mkE ("SLCR_LOCKSTA") 0x0000000C 32 ("ro") (RVal.num 0x00000001) ("SLCR Write Protection Status"),
  mkE ("ARM_PLL_CTRL") 0x00000100 32 ("rw") (RVal.num 0x0001A008) ("Arm PLL Control"),
  mkE ("DDR_PLL_CTRL") 0x00000104 32 ("rw") (RVal.num 0x0001A008) ("DDR PLL Control"),
  mkE ("IO_PLL_CTRL") 0x00000108 32 ("rw") (RVal.num 0x0001A008) ("IO PLL Control"),
  mkE ("PLL_STATUS") 0x0000010C 32 ("ro") (RVal.num 0x0000003F) ("PLL Status"),
  mkE ("ARM_PLL_CFG") 0x00000110 32 ("rw") (RVal.num 0x00177EA0) ("Arm PLL Configuration"),
  mkE ("DDR_PLL_CFG") 0x00000114 32 ("rw") (RVal.num 0x00177EA0) ("DDR PLL Configuration"),
  mkE ("IO_PLL_CFG") 0x00000118 32 ("rw") (RVal.num 0x00177EA0) ("IO PLL Configuration"),
  mkE ("ARM_CLK_CTRL") 0x00000120 32 ("rw") (RVal.num 0x1F000400) ("CPU Clock Control"),
  mkE ("DDR_CLK_CTRL") 0x00000124 32 ("rw") (RVal.num 0x18400003) ("DDR Clock Control"),
  mkE ("DCI_CLK_CTRL") 0x00000128 32 ("rw") (RVal.num 0x01E03201) ("DCI clock control"),
  mkE ("APER_CLK_CTRL") 0x0000012C 32 ("rw") (RVal.num 0x01FFCCCD) ("AMBA Peripheral Clock Control"),
  mkE ("USB0_CLK_CTRL") 0x00000130 32 ("rw") (RVal.num 0x00101941) ("USB 0 ULPI Clock Control"),
  mkE ("USB1_CLK_CTRL") 0x00000134 32 ("rw") (RVal.num 0x00101941) ("USB 1 ULPI Clock Control"),
  mkE ("GEM0_RCLK_CTRL") 0x00000138 32 ("rw") (RVal.num 0x00000001) ("GigE 0 Rx Clock and Rx Signals Select"),
  mkE ("GEM1_RCLK_CTRL") 0x0000013C 32 ("rw") (RVal.num 0x00000001) ("GigE 1 Rx Clock and Rx Signals Select"),
  mkE ("GEM0_CLK_CTRL") 0x00000140 32 ("rw") (RVal.num 0x00003C01) ("GigE 0 Ref Clock Control"),
  mkE ("GEM1_CLK_CTRL") 0x00000144 32 ("rw") (RVal.num 0x00003C01) ("GigE 1 Ref Clock Control"),
  mkE ("SMC_CLK_CTRL") 0x00000148 32 ("rw") (RVal.num 0x00003C21) ("SMC Ref Clock Control"),
  mkE ("LQSPI_CLK_CTRL") 0x0000014C 32 ("rw") (RVal.num 0x00002821) ("Quad SPI Ref Clock Control"),
  mkE ("SDIO_CLK_CTRL") 0x00000150 32 ("rw") (RVal.num 0x00001E03) ("SDIO Ref Clock Control"),
  mkE ("UART_CLK_CTRL") 0x00000154 32 ("rw") (RVal.num 0x00003F03) ("UART Ref Clock Control"),
  mkE ("SPI_CLK_CTRL") 0x00000158 32 ("rw") (RVal.num 0x00003F03) ("SPI Ref Clock Control"),
  mkE ("CAN_CLK_CTRL") 0x0000015C 32 ("rw") (RVal.num 0x00501903) ("CAN Ref Clock Control"),
  mkE ("CAN_MIOCLK_CTRL") 0x00000160 32 ("rw") (RVal.num 0x00000000) ("CAN MIO Clock Control"),
  mkE ("DBG_CLK_CTRL") 0x00000164 32 ("rw") (RVal.num 0x00000F03) ("SoC Debug Clock Control"),
  mkE ("PCAP_CLK_CTRL") 0x00000168 32 ("rw") (RVal.num 0x00000F01) ("PCAP Clock Control"),
  mkE ("TOPSW_CLK_CTRL") 0x0000016C 32 ("rw") (RVal.num 0x00000000) ("Central Interconnect Clock Control"),
  mkE ("FPGA0_CLK_CTRL") 0x00000170 32 ("rw") (RVal.num 0x00101800) ("PL Clock 0 Output control"),
  mkE ("FPGA0_THR_CTRL") 0x00000174 32 ("rw") (RVal.num 0x00000000) ("PL Clock 0 Throttle control"),
  mkE ("FPGA0_THR_CNT") 0x00000178 32 ("rw") (RVal.num 0x00000000) ("PL Clock 0 Throttle Count control"),
  mkE ("FPGA0_THR_STA") 0x0000017C 32 ("ro") (RVal.num 0x00010000) ("PL Clock 0 Throttle Status read"),
  mkE ("FPGA1_CLK_CTRL") 0x00000180 32 ("rw") (RVal.num 0x00101800) ("PL Clock 1 Output control"),
  mkE ("FPGA1_THR_CTRL") 0x00000184 32 ("rw") (RVal.num 0x00000000) ("PL Clock 1 Throttle control"),
  mkE ("FPGA1_THR_CNT") 0x00000188 32 ("rw") (RVal.num 0x00000000) ("PL Clock 1 Throttle Count"),
  mkE ("FPGA1_THR_STA") 0x0000018C 32 ("ro") (RVal.num 0x00010000) ("PL Clock 1 Throttle Status control"),
  mkE ("FPGA2_CLK_CTRL") 0x00000190 32 ("rw") (RVal.num 0x00101800) ("PL Clock 2 output control"),
  mkE ("FPGA2_THR_CTRL") 0x00000194 32 ("rw") (RVal.num 0x00000000) ("PL Clock 2 Throttle Control"),
  mkE ("FPGA2_THR_CNT") 0x00000198 32 ("rw") (RVal.num 0x00000000) ("PL Clock 2 Throttle Count"),
  mkE ("FPGA2_THR_STA") 0x0000019C 32 ("ro") (RVal.num 0x00010000) ("PL Clock 2 Throttle Status"),
  mkE ("FPGA3_CLK_CTRL") 0x000001A0 32 ("rw") (RVal.num 0x00101800) ("PL Clock 3 output control"),
  mkE ("FPGA3_THR_CTRL") 0x000001A4 32 ("rw") (RVal.num 0x00000000) ("PL Clock 3 Throttle Control"),
  mkE ("FPGA3_THR_CNT") 0x000001A8 32 ("rw") (RVal.num 0x00000000) ("PL Clock 3 Throttle Count"),
  mkE ("FPGA3_THR_STA") 0x000001AC 32 ("ro") (RVal.num 0x00010000) ("PL Clock 3 Throttle Status"),
  mkE ("CLK_621_TRUE") 0x000001C4 32 ("rw") (RVal.num 0x00000001) ("CPU Clock Ratio Mode select"),
  mkE ("PSS_RST_CTRL") 0x00000200 32 ("rw") (RVal.num 0x00000000) ("PS Software Reset Control"),
  mkE ("DDR_RST_CTRL") 0x00000204 32 ("rw") (RVal.num 0x00000000) ("DDR Software Reset Control"),
  mkE ("TOPSW_RST_CTRL") 0x00000208 32 ("rw") (RVal.num 0x00000000) ("Central Interconnect Reset Control"),
  mkE ("DMAC_RST_CTRL") 0x0000020C 32 ("rw") (RVal.num 0x00000000) ("DMAC Software Reset Control"),
  mkE ("USB_RST_CTRL") 0x00000210 32 ("rw") (RVal.num 0x00000000) ("USB Software Reset Control"),
  mkE ("GEM_RST_CTRL") 0x00000214 32 ("rw") (RVal.num 0x00000000) ("Gigabit Ethernet SW Reset Control"),
  mkE ("SDIO_RST_CTRL") 0x00000218 32 ("rw") (RVal.num 0x00000000) ("SDIO Software Reset Control"),
  mkE ("SPI_RST_CTRL") 0x0000021C 32 ("rw") (RVal.num 0x00000000) ("SPI Software Reset Control"),
  mkE ("CAN_RST_CTRL") 0x00000220 32 ("rw") (RVal.num 0x00000000) ("CAN Software Reset Control"),
  mkE ("I2C_RST_CTRL") 0x00000224 32 ("rw") (RVal.num 0x00000000) ("I2C Software Reset Control"),
  mkE ("UART_RST_CTRL") 0x00000228 32 ("rw") (RVal.num 0x00000000) ("UART Software Reset Control"),
  mkE ("GPIO_RST_CTRL") 0x0000022C 32 ("rw") (RVal.num 0x00000000) ("GPIO Software Reset Control"),
  mkE ("LQSPI_RST_CTRL") 0x00000230 32 ("rw") (RVal.num 0x00000000) ("Quad SPI Software Reset Control"),
  mkE ("SMC_RST_CTRL") 0x00000234 32 ("rw") (RVal.num 0x00000000) ("SMC Software Reset Control"),
  mkE ("OCM_RST_CTRL") 0x00000238 32 ("rw") (RVal.num 0x00000000) ("OCM Software Reset Control"),
  mkE ("FPGA_RST_CTRL") 0x00000240 32 ("rw") (RVal.num 0x01F33F0F) ("FPGA Software Reset Control"),
  mkE ("A9_CPU_RST_CTRL") 0x00000244 32 ("rw") (RVal.num 0x00000000) ("CPU Reset and Clock control"),
  mkE ("RS_AWDT_CTRL") 0x0000024C 32 ("rw") (RVal.num 0x00000000) ("Watchdog Timer Reset Control"),
  mkE ("REBOOT_STATUS") 0x00000258 32 ("rw") (RVal.num 0x00400000) ("Reboot Status, persistent"),
  mkE ("BOOT_MODE") 0x0000025C 32 ("mixed") (RVal.str ("x")) ("Boot Mode Strapping Pins"),
  mkE ("APU_CTRL") 0x00000300 32 ("rw") (RVal.num 0x00000000) ("APU Control"),
  mkE ("WDT_CLK_SEL") 0x00000304 32 ("rw") (RVal.num 0x00000000) ("SWDT clock source select"),
  mkE ("TZ_DMA_NS") 0x00000440 32 ("rw") (RVal.num 0x00000000) ("DMAC TrustZone Config"),
  mkE ("TZ_DMA_IRQ_NS") 0x00000444 32 ("rw") (RVal.num 0x00000000) ("DMAC TrustZone Config for Interrupts"),
  mkE ("TZ_DMA_PERIPH_NS") 0x00000448 32 ("rw") (RVal.num 0x00000000) ("DMAC TrustZone Config for Peripherals"),
  mkE ("PSS_IDCODE") 0x00000530 32 ("ro") (RVal.str ("x")) ("PS IDCODE"),
  mkE ("DDR_URGENT") 0x00000600 32 ("rw") (RVal.num 0x00000000) ("DDR Urgent Control"),
  mkE ("DDR_CAL_START") 0x0000060C 32 ("mixed") (RVal.num 0x00000000) ("DDR Calibration Start Triggers"),
  mkE ("DDR_REF_START") 0x00000614 32 ("mixed") (RVal.num 0x00000000) ("DDR Refresh Start Triggers"),
  mkE ("DDR_CMD_STA") 0x00000618 32 ("mixed") (RVal.num 0x00000000) ("DDR Command Store Status"),
  mkE ("DDR_URGENT_SEL") 0x0000061C 32 ("rw") (RVal.num 0x00000000) ("DDR Urgent Select"),
  mkE ("DDR_DFI_STATUS") 0x00000620 32 ("mixed") (RVal.num 0x00000000) ("DDR DFI status"),
  mkE ("MIO_PIN_00") 0x00000700 32 ("rw") (RVal.num 0x00001601) ("MIO Pin 0 Control"),
  mkE ("MIO_PIN_01") 0x00000704 32 ("rw") (RVal.num 0x00001601) ("MIO Pin 1 Control"),
  mkE ("MIO_PIN_02") 0x00000708 32 ("rw") (RVal.num 0x00000601) ("MIO Pin 2 Control"),
  mkE ("MIO_PIN_03") 0x0000070C 32 ("rw") (RVal.num 0x00000601) ("MIO Pin 3 Control"),
  mkE ("MIO_PIN_04") 0x00000710 32 ("rw") (RVal.num 0x00000601) ("MIO Pin 4 Control"),
  mkE ("MIO_PIN_05") 0x00000714 32 ("rw") (RVal.num 0x00000601) ("MIO Pin 5 Control"),
  mkE ("MIO_PIN_06") 0x00000718 32 ("rw") (RVal.num 0x00000601) ("MIO Pin 6 Control"),
  mkE ("MIO_PIN_07") 0x0000071C 32 ("rw") (RVal.num 0x00000601) ("MIO Pin 7 Control"),
  mkE ("MIO_PIN_08") 0x00000720 32 ("rw") (RVal.num 0x00000601) ("MIO Pin 8 Control"),
  mkE ("MIO_PIN_09") 0x00000724 32 ("rw") (RVal.num 0x00001601) ("MIO Pin 9 Control"),
  mkE ("MIO_PIN_10") 0x00000728 32 ("rw") (RVal.num 0x00001601) ("MIO Pin 10 Control"),
  mkE ("MIO_PIN_11") 0x0000072C 32 ("rw") (RVal.num 0x00001601) ("MIO Pin 11 Control"),
  mkE ("MIO_PIN_12") 0x00000730 32 ("rw") (RVal.num 0x00001601) ("MIO Pin 12 Control"),
  mkE ("MIO_PIN_13") 0x00000734 32 ("rw") (RVal.num 0x00001601) ("MIO Pin 13 Control"),
  mkE ("MIO_PIN_14") 0x00000738 32 ("rw") (RVal.num 0x00001601) ("MIO Pin 14 Control"),
  mkE ("MIO_PIN_15") 0x0000073C 32 ("rw") (RVal.num 0x00001601) ("MIO Pin 15 Control"),
  mkE ("MIO_PIN_16") 0x00000740 32 ("rw") (RVal.num 0x00001601) ("MIO Pin 16 Control"),
  mkE ("MIO_PIN_17") 0x00000744 32 ("rw") (RVal.num 0x00001601) ("MIO Pin 17 Control"),
  mkE ("MIO_PIN_18") 0x00000748 32 ("rw") (RVal.num 0x00001601) ("MIO Pin 18 Control"),
  mkE ("MIO_PIN_19") 0x0000074C 32 ("rw") (RVal.num 0x00001601) ("MIO Pin 19 Control"),
  mkE ("MIO_PIN_20") 0x00000750 32 ("rw") (RVal.num 0x00001601) ("MIO Pin 20 Control"),
  mkE ("MIO_PIN_21") 0x00000754 32 ("rw") (RVal.num 0x00001601) ("MIO Pin 21 Control"),
  mkE ("MIO_PIN_22") 0x00000758 32 ("rw") (RVal.num 0x00001601) ("MIO Pin 22 Control"),
  mkE ("MIO_PIN_23") 0x0000075C 32 ("rw") (RVal.num 0x00001601) ("MIO Pin 23 Control"),
  mkE ("MIO_PIN_24") 0x00000760 32 ("rw") (RVal.num 0x00001601) ("MIO Pin 24 Control"),
  mkE ("MIO_PIN_25") 0x00000764 32 ("rw") (RVal.num 0x00001601) ("MIO Pin 25 Control"),
  mkE ("MIO_PIN_26") 0x00000768 32 ("rw") (RVal.num 0x00001601) ("MIO Pin 26 Control"),
  mkE ("MIO_PIN_27") 0x0000076C 32 ("rw") (RVal.num 0x00001601) ("MIO Pin 27 Control"),
  mkE ("MIO_PIN_28") 0x00000770 32 ("rw") (RVal.num 0x00001601) ("MIO Pin 28 Control"),
  mkE ("MIO_PIN_29") 0x00000774 32 ("rw") (RVal.num 0x00001601) ("MIO Pin 29 Control"),
  mkE ("MIO_PIN_30") 0x00000778 32 ("rw") (RVal.num 0x00001601) ("MIO Pin 30 Control"),
  mkE ("MIO_PIN_31") 0x0000077C 32 ("rw") (RVal.num 0x00001601) ("MIO Pin 31 Control"),
  mkE ("MIO_PIN_32") 0x00000780 32 ("rw") (RVal.num 0x00001601) ("MIO Pin 32 Control"),
  mkE ("MIO_PIN_33") 0x00000784 32 ("rw") (RVal.num 0x00001601) ("MIO Pin 33 Control"),
  mkE ("MIO_PIN_34") 0x00000788 32 ("rw") (RVal.num 0x00001601) ("MIO Pin 34 Control"),
  mkE ("MIO_PIN_35") 0x0000078C 32 ("rw") (RVal.num 0x00001601) ("MIO Pin 35 Control"),
  mkE ("MIO_PIN_36") 0x00000790 32 ("rw") (RVal.num 0x00001601) ("MIO Pin 36 Control"),
  mkE ("MIO_PIN_37") 0x00000794 32 ("rw") (RVal.num 0x00001601) ("MIO Pin 37 Control"),
  mkE ("MIO_PIN_38") 0x00000798 32 ("rw") (RVal.num 0x00001601) ("MIO Pin 38 Control"),
  mkE ("MIO_PIN_39") 0x0000079C 32 ("rw") (RVal.num 0x00001601) ("MIO Pin 39 Control"),
  mkE ("MIO_PIN_40") 0x000007A0 32 ("rw") (RVal.num 0x00001601) ("MIO Pin 40 Control"),
  mkE ("MIO_PIN_41") 0x000007A4 32 ("rw") (RVal.num 0x00001601) ("MIO Pin 41 Control"),
  mkE ("MIO_PIN_42") 0x000007A8 32 ("rw") (RVal.num 0x00001601) ("MIO Pin 42 Control"),
  mkE ("MIO_PIN_43") 0x000007AC 32 ("rw") (RVal.num 0x00001601) ("MIO Pin 43 Control"),
  mkE ("MIO_PIN_44") 0x000007B0 32 ("rw") (RVal.num 0x00001601) ("MIO Pin 44 Control"),
  mkE ("MIO_PIN_45") 0x000007B4 32 ("rw") (RVal.num 0x00001601) ("MIO Pin 45 Control"),
  mkE ("MIO_PIN_46") 0x000007B8 32 ("rw") (RVal.num 0x00001601) ("MIO Pin 46 Control"),
  mkE ("MIO_PIN_47") 0x000007BC 32 ("rw") (RVal.num 0x00001601) ("MIO Pin 47 Control"),
  mkE ("MIO_PIN_48") 0x000007C0 32 ("rw") (RVal.num 0x00001601) ("MIO Pin 48 Control"),
  mkE ("MIO_PIN_49") 0x000007C4 32 ("rw") (RVal.num 0x00001601) ("MIO Pin 49 Control"),
  mkE ("MIO_PIN_50") 0x000007C8 32 ("rw") (RVal.num 0x00001601) ("MIO Pin 50 Control"),
  mkE ("MIO_PIN_51") 0x000007CC 32 ("rw") (RVal.num 0x00001601) ("MIO Pin 51 Control"),
  mkE ("MIO_PIN_52") 0x000007D0 32 ("rw") (RVal.num 0x00001601) ("MIO Pin 52 Control"),
  mkE ("MIO_PIN_53") 0x000007D4 32 ("rw") (RVal.num 0x00001601) ("MIO Pin 53 Control"),
  mkE ("MIO_LOOPBACK") 0x00000804 32 ("rw") (RVal.num 0x00000000) ("Loopback function within MIO"),
  mkE ("MIO_MST_TRI0") 0x0000080C 32 ("rw") (RVal.num 0xFFFFFFFF) ("MIO pin Tri-state Enables, 31:0"),
  mkE ("MIO_MST_TRI1") 0x00000810 32 ("rw") (RVal.num 0x003FFFFF) ("MIO pin Tri-state Enables, 53:32"),
  mkE ("SD0_WP_CD_SEL") 0x00000830 32 ("rw") (RVal.num 0x00000000) ("SDIO 0 WP CD select"),
  mkE ("SD1_WP_CD_SEL") 0x00000834 32 ("rw") (RVal.num 0x00000000) ("SDIO 1 WP CD select"),
  mkE ("LVL_SHFTR_EN") 0x00000900 32 ("rw") (RVal.num 0x00000000) ("Level Shifters Enable"),
  mkE ("OCM_CFG") 0x00000910 32 ("rw") (RVal.num 0x00000000) ("OCM Address Mapping"),
  mkE ("Reserved") 0x00000A1C 32 ("rw") (RVal.num 0x00010101) ("Reserved"),
  mkE ("GPIOB_CTRL") 0x00000B00 32 ("rw") (RVal.num 0x00000000) ("PS IO Buffer Control"),
  mkE ("GPIOB_CFG_CMOS18") 0x00000B04 32 ("rw") (RVal.num 0x00000000) ("MIO GPIOB CMOS 1.8V config"),
  mkE ("GPIOB_CFG_CMOS25") 0x00000B08 32 ("rw") (RVal.num 0x00000000) ("MIO GPIOB CMOS 2.5V config"),
  mkE ("GPIOB_CFG_CMOS33") 0x00000B0C 32 ("rw") (RVal.num 0x00000000) ("MIO GPIOB CMOS 3.3V config"),
  mkE ("GPIOB_CFG_HSTL") 0x00000B14 32 ("rw") (RVal.num 0x00000000) ("MIO GPIOB HSTL config"),
  mkE ("GPIOB_DRVR_BIAS_CTRL") 0x00000B18 32 ("mixed") (RVal.num 0x00000000) ("MIO GPIOB Driver Bias Control"),
  mkE ("DDRIOB_ADDR0") 0x00000B40 32 ("rw") (RVal.num 0x00000800) ("DDR IOB Config for ARegister(14:0), CKE and DRST_B"),
  mkE ("DDRIOB_ADDR1") 0x00000B44 32 ("rw") (RVal.num 0x00000800) ("DDR IOB Config for BARegister(2:0), ODT, CS_B, WE_B, RAS_B and CAS_B"),
  mkE ("DDRIOB_DATA0") 0x00000B48 32 ("rw") (RVal.num 0x00000800) ("DDR IOB Config for Data 15:0"),
  mkE ("DDRIOB_DATA1") 0x00000B4C 32 ("rw") (RVal.num 0x00000800) ("DDR IOB Config for Data 31:16"),
  mkE ("DDRIOB_DIFF0") 0x00000B50 32 ("rw") (RVal.num 0x00000800) ("DDR IOB Config for DQS 1:0"),
  mkE ("DDRIOB_DIFF1") 0x00000B54 32 ("rw") (RVal.num 0x00000800) ("DDR IOB Config for DQS 3:2"),
  mkE ("DDRIOB_CLOCK") 0x00000B58 32 ("rw") (RVal.num 0x00000800) ("DDR IOB Config for Clock Output"),
  mkE ("DDRIOB_DRIVE_SLEW_ADDR") 0x00000B5C 32 ("rw") (RVal.num 0x00000000) ("Drive and Slew controls for Address and Command pins of the DDR Interface"),
  mkE ("DDRIOB_DRIVE_SLEW_DATA") 0x00000B60 32 ("rw") (RVal.num 0x00000000) ("Drive and Slew controls for DQ pins of the DDR Interface"),
  mkE ("DDRIOB_DRIVE_SLEW_DIFF") 0x00000B64 32 ("rw") (RVal.num 0x00000000) ("Drive and Slew controls for DQS pins of the DDR Interface"),
  mkE ("DDRIOB_DRIVE_SLEW_CLOCK") 0x00000B68 32 ("rw") (RVal.num 0x00000000) ("Drive and Slew controls for Clock pins of the DDR Interface"),
  mkE ("DDRIOB_DDR_CTRL") 0x00000B6C 32 ("rw") (RVal.num 0x00000000) ("DDR IOB Buffer Control"),
  mkE ("DDRIOB_DCI_CTRL") 0x00000B70 32 ("rw") (RVal.num 0x00000020) ("DDR IOB DCI Config"),
  mkE ("DDRIOB_DCI_STATUS") 0x00000B74 32 ("mixed") (RVal.num 0x00000000) ("DDR IO Buffer DCI Status")] ("slcr")

def ddrc : BaseRegister := mkBaseRegister [0xF8006000] [
  mkE ("ddrc_ctrl") 0x00000000 32 ("rw") (RVal.num 0x00000200) ("DDRC Control"),
  mkE ("Two_rank_cfg") 0x00000004 29 ("rw") (RVal.num 0x000C1076) ("Two Rank Configuration"),
  mkE ("HPR_reg") 0x00000008 26 ("rw") (RVal.num 0x03C0780F) ("HPR Queue control"),
  mkE ("LPR_reg") 0x0000000C 26 ("rw") (RVal.num 0x03C0780F) ("LPR Queue control"),
  mkE ("WR_reg") 0x00000010 26 ("rw") (RVal.num 0x0007F80F) ("WR Queue control"),
  mkE ("DRAM_param_reg0") 0x00000014 21 ("rw") (RVal.num 0x00041016) ("DRAM Parameters 0"),
  mkE ("DRAM_param_reg1") 0x00000018 32 ("rw") (RVal.num 0x351B48D9) ("DRAM Parameters 1"),
  mkE ("DRAM_param_reg2") 0x0000001C 32 ("rw") (RVal.num 0x83015904) ("DRAM Parameters 2"),
  mkE ("DRAM_param_reg3") 0x00000020 32 ("mixed") (RVal.num 0x250882D0) ("DRAM Parameters 3"),
  mkE ("DRAM_param_reg4") 0x00000024 28 ("mixed") (RVal.num 0x0000003C) ("DRAM Parameters 4"),
  mkE ("DRAM_init_param") 0x00000028 14 ("rw") (RVal.num 0x00002007) ("DRAM Initialization Parameters"),
  mkE ("DRAM_EMR_reg") 0x0000002C 32 ("rw") (RVal.num 0x00000008) ("DRAM EMR2, EMR3 access"),
  mkE ("DRAM_EMR_MR_reg") 0x00000030 32 ("rw") (RVal.num 0x00000940) ("DRAM EMR, MR access"),
  mkE ("DRAM_burst8_rdwr") 0x00000034 29 ("mixed") (RVal.num 0x00020034) ("DRAM Burst 8 read/write"),
  mkE ("DRAM_disable_DQ") 0x00000038 13 ("mixed") (RVal.num 0x00000000) ("DRAM Disable DQ"),
  mkE ("DRAM_addr_map_bank") 0x0000003C 20 ("rw") (RVal.num 0x00000F77) ("Row/Column address bits"),
  mkE ("DRAM_addr_map_col") 0x00000040 32 ("rw") (RVal.num 0xFFF00000) ("Column address bits"),
  mkE ("DRAM_addr_map_row") 0x00000044 28 ("rw") (RVal.num 0x0FF55555) ("Select DRAM row address bits"),
  mkE ("DRAM_ODT_reg") 0x00000048 30 ("rw") (RVal.num 0x00000249) ("DRAM ODT control"),
  mkE ("phy_dbg_reg") 0x0000004C 20 ("ro") (RVal.num 0x00000000) ("PHY debug"),
  mkE ("phy_cmd_timeout_rddata_cpt") 0x00000050 32 ("mixed") (RVal.num 0x00010200) ("PHY command time out and read data capture FIFO"),
  mkE ("mode_sts_reg") 0x00000054 21 ("ro") (RVal.num 0x00000000) ("Controller operation mode status"),
  mkE ("DLL_calib") 0x00000058 17 ("rw") (RVal.num 0x00000101) ("DLL calibration"),
  mkE ("ODT_delay_hold") 0x0000005C 16 ("rw") (RVal.num 0x00000023) ("ODT delay and ODT hold"),
  mkE ("ctrl_reg1") 0x00000060 13 ("mixed") (RVal.num 0x0000003E) ("Controller 1"),
  mkE ("ctrl_reg2") 0x00000064 18 ("mixed") (RVal.num 0x00020000) ("Controller 2"),
  mkE ("ctrl_reg3") 0x00000068 26 ("rw") (RVal.num 0x00284027) ("Controller 3"),
  mkE ("ctrl_reg4") 0x0000006C 16 ("rw") (RVal.num 0x00001610) ("Controller 4"),
  mkE ("ctrl_reg5") 0x00000078 32 ("mixed") (RVal.num 0x00455111) ("Controller register 5"),
  mkE ("ctrl_reg6") 0x0000007C 32 ("mixed") (RVal.num 0x00032222) ("Controller register 6"),
  mkE ("CHE_REFRESH_TIMER01") 0x000000A0 24 ("rw") (RVal.num 0x00008000) ("CHE_REFRESH_TIMER01"),
  mkE ("CHE_T_ZQ") 0x000000A4 32 ("rw") (RVal.num 0x10300802) ("ZQ parameters"),
  mkE ("CHE_T_ZQ_Short_Interval_Reg") 0x000000A8 28 ("rw") (RVal.num 0x0020003A) ("Misc parameters"),
  mkE ("deep_pwrdwn_reg") 0x000000AC 9 ("rw") (RVal.str ("0x00000000")) ("Deep powerdown (LPDDR2)"),
  mkE ("reg_2c") 0x000000B0 29 ("mixed") (RVal.num 0x00000000) ("Training control"),
  mkE ("reg_2d") 0x000000B4 11 ("rw") (RVal.num 0x00000200) ("Misc Debug"),
  mkE ("dfi_timing") 0x000000B8 25 ("rw") (RVal.num 0x00200067) ("DFI timing"),
  mkE ("CHE_ECC_CONTROL_REG_OFFSET") 0x000000C4 2 ("rw") (RVal.num 0x00000000) ("ECCerror clear"),
  mkE ("CHE_CORR_ECC_LOG_REG_OFFSET") 0x000000C8 8 ("mixed") (RVal.num 0x00000000) ("ECCerror correction"),
  mkE ("CHE_CORR_ECC_ADDR_REG_OFFSET") 0x000000CC 31 ("ro") (RVal.num 0x00000000) ("ECC error correction address log"),
  mkE ("CHE_CORR_ECC_DATA_31_0_REG_OFFSET") 0x000000D0 32 ("ro") (RVal.num 0x00000000) ("ECC error correction data log low"),
  mkE ("CHE_CORR_ECC_DATA_63_32_REG_OFFSET") 0x000000D4 32 ("ro") (RVal.num 0x00000000) ("ECC error correction data log mid"),
  mkE ("CHE_CORR_ECC_DATA_71_64_REG_OFFSET") 0x000000D8 8 ("ro") (RVal.num 0x00000000) ("ECCerror correction data log high"),
  mkE ("CHE_UNCORR_ECC_LOG_REG_OFFSET") 0x000000DC 1 ("clronwr") (RVal.num 0x00000000) ("ECC unrecoverable error status"),
  mkE ("CHE_UNCORR_ECC_ADDR_REG_OFFSET") 0x000000E0 31 ("ro") (RVal.num 0x00000000) ("ECC unrecoverable error address"),
  mkE ("CHE_UNCORR_ECC_DATA_31_0_REG_OFFSET") 0x000000E4 32 ("ro") (RVal.num 0x00000000) ("ECC unrecoverable error data low"),
  mkE ("CHE_UNCORR_ECC_DATA_63_32_REG_OFFSET") 0x000000E8 32 ("ro") (RVal.num 0x00000000) ("ECC unrecoverable error data middle"),
  mkE ("CHE_UNCORR_ECC_DATA_71_64_REG_OFFSET") 0x000000EC 8 ("ro") (RVal.num 0x00000000) ("ECC unrecoverable error data high"),
  mkE ("CHE_ECC_STATS_REG_OFFSET") 0x000000F0 16 ("clron wr") (RVal.num 0x00000000) ("ECC error count"),
  mkE ("ECC_scrub") 0x000000F4 4 ("rw") (RVal.num 0x00000008) ("ECC mode/scrub"),
  mkE ("CHE_ECC_CORR_BIT_MASK_31_0_REG_OFFSET") 0x000000F8 32 ("ro") (RVal.num 0x00000000) ("ECC data mask low"),
  mkE ("CHE_ECC_CORR_BIT_MASK_63_32_REG_OFFSET") 0x000000FC 32 ("ro") (RVal.num 0x00000000) ("ECC data mask high"),
  mkE ("phy_rcvr_enable") 0x00000114 8 ("rw") (RVal.num 0x00000000) ("Phyreceiver enable register"),
  mkE ("PHY_Config0") 0x00000118 31 ("rw") (RVal.num 0x40000001) ("PHY configuration register for data slice 0."),
  mkE ("PHY_Config1") 0x0000011C 31 ("rw") (RVal.num 0x40000001) ("PHY configuration register for data slice 1."),
  mkE ("PHY_Config2") 0x00000120 31 ("rw") (RVal.num 0x40000001) ("PHY configuration register for data slice 2."),
  mkE ("PHY_Config3") 0x00000124 31 ("rw") (RVal.num 0x40000001) ("PHY configuration register for data slice 3."),
  mkE ("phy_init_ratio0") 0x0000012C 20 ("rw") (RVal.num 0x00000000) ("PHY init ratio register for data slice 0."),
  mkE ("phy_init_ratio1") 0x00000130 20 ("rw") (RVal.num 0x00000000) ("PHY init ratio register for data slice 1."),
  mkE ("phy_init_ratio2") 0x00000134 20 ("rw") (RVal.num 0x00000000) ("PHY init ratio register for data slice 2."),
  mkE ("phy_init_ratio3") 0x00000138 20 ("rw") (RVal.num 0x00000000) ("PHY init ratio register for data slice 3."),
  mkE ("phy_rd_dqs_cfg0") 0x00000140 20 ("rw") (RVal.num 0x00000040) ("PHY read DQS configuration register for data slice 0."),
  mkE ("phy_rd_dqs_cfg1") 0x00000144 20 ("rw") (RVal.num 0x00000040) ("PHY read DQS configuration register for data slice 1."),
  mkE ("phy_rd_dqs_cfg2") 0x00000148 20 ("rw") (RVal.num 0x00000040) ("PHY read DQS configuration register for data slice 2."),
  mkE ("phy_rd_dqs_cfg3") 0x0000014C 20 ("rw") (RVal.num 0x00000040) ("PHY read DQS configuration register for data slice 3."),
  mkE ("phy_wr_dqs_cfg0") 0x00000154 20 ("rw") (RVal.num 0x00000000) ("PHY write DQS configuration register for data slice 0."),
  mkE ("phy_wr_dqs_cfg1") 0x00000158 20 ("rw") (RVal.num 0x00000000) ("PHY write DQS configuration register for data slice 1."),
  mkE ("phy_wr_dqs_cfg2") 0x0000015C 20 ("rw") (RVal.num 0x00000000) ("PHY write DQS configuration register for data slice 2."),
  mkE ("phy_wr_dqs_cfg3") 0x00000160 20 ("rw") (RVal.num 0x00000000) ("PHY write DQS configuration register for data slice 3."),
  mkE ("phy_we_cfg0") 0x00000168 21 ("rw") (RVal.num 0x00000040) ("PHY FIFO write enable configuration for data slice 0."),
  mkE ("phy_we_cfg1") 0x0000016C 21 ("rw") (RVal.num 0x00000040) ("PHY FIFO write enable configuration for data slice 1."),
  mkE ("phy_we_cfg2") 0x00000170 21 ("rw") (RVal.num 0x00000040) ("PHY FIFO write enable configuration for data slice 2."),
  mkE ("phy_we_cfg3") 0x00000174 21 ("rw") (RVal.num 0x00000040) ("PHY FIFO write enable configuration for data slice 3."),
  mkE ("wr_data_slv0") 0x0000017C 20 ("rw") (RVal.num 0x00000080) ("PHY write data slave ratio config for data slice 0."),
  mkE ("wr_data_slv1") 0x00000180 20 ("rw") (RVal.num 0x00000080) ("PHY write data slave ratio config for data slice 1."),
  mkE ("wr_data_slv2") 0x00000184 20 ("rw") (RVal.num 0x00000080) ("PHY write data slave ratio config for data slice 2."),
  mkE ("wr_data_slv3") 0x00000188 20 ("rw") (RVal.num 0x00000080) ("PHY write data slave ratio config for data slice 3."),
  mkE ("reg_64") 0x00000190 32 ("rw") (RVal.num 0x10020000) ("Training control 2"),
  mkE ("reg_65") 0x00000194 20 ("rw") (RVal.num 0x00000000) ("Training control 3"),
  mkE ("reg69_6a0") 0x000001A4 29 ("ro") (RVal.num 0x00070000) ("Training results for data slice 0."),
  mkE ("reg69_6a1") 0x000001A8 29 ("ro") (RVal.num 0x00060200) ("Training results for data slice 1."),
  mkE ("reg6c_6d2") 0x000001B0 28 ("ro") (RVal.num 0x00040600) ("Training results for data slice 2."),
  mkE ("reg6c_6d3") 0x000001B4 28 ("ro") (RVal.num 0x00000E00) ("Training results for data slice 3."),
  mkE ("reg6e_710") 0x000001B8 30 ("ro") (RVal.str ("xx")) ("Training results (2) for data slice 0."),
  mkE ("reg6e_711") 0x000001BC 30 ("ro") (RVal.str ("xx")) ("Training results (2) for data slice 1."),
  mkE ("reg6e_712") 0x000001C0 30 ("ro") (RVal.str ("xx")) ("Training results (2) for data slice 2."),
  mkE ("reg6e_713") 0x000001C4 30 ("ro") (RVal.str ("xx")) ("Training results (2) for data slice 3."),
  mkE ("phy_dll_sts0") 0x000001CC 27 ("ro") (RVal.num 0x00000000) ("Slave DLL results for data slice 0."),
  mkE ("phy_dll_sts1") 0x000001D0 27 ("ro") (RVal.num 0x00000000) ("Slave DLL results for data slice 1."),
  mkE ("phy_dll_sts2") 0x000001D4 27 ("ro") (RVal.num 0x00000000) ("Slave DLL results for data slice 2."),
  mkE ("phy_dll_sts3") 0x000001D8 27 ("ro") (RVal.num 0x00000000) ("Slave DLL results for data slice 3."),
  mkE ("dll_lock_sts") 0x000001E0 24 ("ro") (RVal.num 0x00F00000) ("DLL Lock Status, read"),
  mkE ("phy_ctrl_sts") 0x000001E4 30 ("ro") (RVal.str ("xx")) ("PHY Control status, read"),
  mkE ("phy_ctrl_sts_reg2") 0x000001E8 27 ("ro") (RVal.num 0x00000013) ("PHY Control status (2), read"),
  mkE ("axi_id") 0x00000200 26 ("ro") (RVal.num 0x00153042) ("ID and revision information"),
  mkE ("page_mask") 0x00000204 32 ("rw") (RVal.num 0x00000000) ("Page mask"),
  mkE ("axi_priority_wr_port0") 0x00000208 20 ("mixed") (RVal.num 0x000803FF) ("AXI Priority control for write port 0."),
  mkE ("axi_priority_wr_port1") 0x0000020C 20 ("mixed") (RVal.num 0x000803FF) ("AXI Priority control for write port 1."),
  mkE ("axi_priority_wr_port2") 0x00000210 20 ("mixed") (RVal.num 0x000803FF) ("AXI Priority control for write port 2."),
  mkE ("axi_priority_wr_port3") 0x00000214 20 ("mixed") (RVal.num 0x000803FF) ("AXI Priority control for write port 3."),
  mkE ("axi_priority_rd_port0") 0x00000218 20 ("mixed") (RVal.num 0x000003FF) ("AXI Priority control for read port 0."),
  mkE ("axi_priority_rd_port1") 0x0000021C 20 ("mixed") (RVal.num 0x000003FF) ("AXI Priority control for read port 1."),
  mkE ("axi_priority_rd_port2") 0x00000220 20 ("mixed") (RVal.num 0x000003FF) ("AXI Priority control for read port 2."),
  mkE ("axi_priority_rd_port3") 0x00000224 20 ("mixed") (RVal.num 0x000003FF) ("AXI Priority control for read port 3."),
  mkE ("excl_access_cfg0") 0x00000294 18 ("rw") (RVal.num 0x00000000) ("Exclusive access configuration for port 0."),
  mkE ("excl_access_cfg1") 0x00000298 18 ("rw") (RVal.num 0x00000000) ("Exclusive access configuration for port 1."),
  mkE ("excl_access_cfg2") 0x0000029C 18 ("rw") (RVal.num 0x00000000) ("Exclusive access configuration for port 2."),
  mkE ("excl_access_cfg3") 0x000002A0 18 ("rw") (RVal.num 0x00000000) ("Exclusive access configuration for port 3."),
  mkE ("mode_reg_read") 0x000002A4 32 ("ro") (RVal.num 0x00000000) ("Mode register read data"),
  mkE ("lpddr_ctrl0") 0x000002A8 12 ("rw") (RVal.num 0x00000000) ("LPDDR2 Control 0"),
  mkE ("lpddr_ctrl1") 0x000002AC 32 ("rw") (RVal.num 0x00000000) ("LPDDR2 Control 1"),
  mkE ("lpddr_ctrl2") 0x000002B0 22 ("rw") (RVal.num 0x003C0015) ("LPDDR2 Control 2"),
  mkE ("lpddr_ctrl3") 0x000002B4 18 ("rw") (RVal.num 0x00000601) ("LPDDR2 Control 3")] ("ddrc")

def devcfg : BaseRegister := mkBaseRegister [0xF8007000] [
  mkE ("XDCFG_CTRL_OFFSET") 0x00000000 32 ("mixed") (RVal.num 0x0C006000) ("Control Register"),
  mkE ("XDCFG_LOCK_OFFSET") 0x00000004 32 ("mixed") (RVal.num 0x00000000) ("Locks for the Control Register."),
  mkE ("XDCFG_CFG_OFFSET") 0x00000008 32 ("rw") (RVal.num 0x00000508) ("Configuration Register: This register contains configuration information for the AXI transfers, and other general setup."),
  mkE ("XDCFG_INT_STS_OFFSET") 0x0000000C 32 ("mixed") (RVal.num 0x00000000) ("Interrupt Status"),
  mkE ("XDCFG_INT_MASK_OFFSET") 0x00000010 32 ("rw") (RVal.num 0xFFFFFFFF) ("Interrupt Mask."),
  mkE ("XDCFG_STATUS_OFFSET") 0x00000014 32 ("mixed") (RVal.num 0x40000820) ("Miscellaneous Status."),
  mkE ("XDCFG_DMA_SRC_ADDR_OFFSET") 0x00000018 32 ("rw") (RVal.num 0x00000000) ("DMA Source Address."),
  mkE ("XDCFG_DMA_DEST_ADDR_OFFSET") 0x0000001C 32 ("rw") (RVal.num 0x00000000) ("DMA Destination Address."),
  mkE ("XDCFG_DMA_SRC_LEN_OFFSET") 0x00000020 32 ("rw") (RVal.num 0x00000000) ("DMA Source Transfer Length."),
  mkE ("XDCFG_DMA_DEST_LEN_OFFSET") 0x00000024 32 ("rw") (RVal.num 0x00000000) ("DMA Destination Transfer Length."),
  mkE ("XDCFG_MULTIBOOT_ADDR_OFFSET") 0x0000002C 13 ("rw") (RVal.num 0x00000000) ("Multi-Boot Address Pointer."),
  mkE ("XDCFG_UNLOCK_OFFSET") 0x00000034 32 ("rw") (RVal.num 0x00000000) ("Unlock Control."),
  mkE ("XDCFG_MCTRL_OFFSET") 0x00000080 32 ("mixed") (RVal.str ("x")) ("Miscellaneous Control."),
  mkE ("XADCIF_CFG") 0x00000100 32 ("rw") (RVal.num 0x00001114) ("XADC Interface Configuration."),
  mkE ("XADCIF_INT_STS") 0x00000104 32 ("mixed") (RVal.num 0x00000200) ("XADC Interface Interrupt Status."),
  mkE ("XADCIF_INT_MASK") 0x00000108 32 ("rw") (RVal.num 0xFFFFFFFF) ("XADC Interface Interrupt Mask."),
  mkE ("XADCIF_MSTS") 0x0000010C 32 ("ro") (RVal.num 0x00000500) ("XADC Interface Miscellaneous Status."),
  mkE ("XADCIF_CMDFIFO") 0x00000110 32 ("wo") (RVal.num 0x00000000) ("XADC Interface Command FIFO Data Port"),
  mkE ("XADCIF_RDFIFO") 0x00000114 32 ("ro") (RVal.num 0x00000000) ("XADC Interface Data FIFO Data Port"),
  mkE ("XADCIF_MCTL") 0x00000118 32 ("rw") (RVal.num 0x00000010) ("XADC Interface Miscellaneous Control.")] ("devcfg")

def uart : BaseRegister := mkBaseRegister [0xE0000000, 0xE0001000] [
  mkE ("XUARTPS_CR_OFFSET") 0x00000000 32 ("mixed") (RVal.num 0x00000128) ("UART Control Register"),
  mkE ("XUARTPS_MR_OFFSET") 0x00000004 32 ("mixed") (RVal.num 0x00000000) ("UART Mode Register"),
  mkE ("XUARTPS_IER_OFFSET") 0x00000008 32 ("mixed") (RVal.num 0x00000000) ("Interrupt Enable Register"),
  mkE ("XUARTPS_IDR_OFFSET") 0x0000000C 32 ("mixed") (RVal.num 0x00000000) ("Interrupt Disable Register"),
  mkE ("XUARTPS_IMR_OFFSET") 0x00000010 32 ("ro") (RVal.num 0x00000000) ("Interrupt Mask Register"),
  mkE ("XUARTPS_ISR_OFFSET") 0x00000014 32 ("wtc") (RVal.num 0x00000000) ("Channel Interrupt Status Register"),
  mkE ("XUARTPS_BAUDGEN_OFFSET") 0x00000018 32 ("mixed") (RVal.num 0x0000028B) ("Baud Rate Generator Register."),
  mkE ("XUARTPS_RXTOUT_OFFSET") 0x0000001C 32 ("mixed") (RVal.num 0x00000000) ("Receiver Timeout Register"),
  mkE ("XUARTPS_RXWM_OFFSET") 0x00000020 32 ("mixed") (RVal.num 0x00000020) ("Receiver FIFO Trigger Level Register"),
  mkE ("XUARTPS_MODEMCR_OFFSET") 0x00000024 32 ("mixed") (RVal.num 0x00000000) ("Modem Control Register"),
  mkE ("XUARTPS_MODEMSR_OFFSET") 0x00000028 32 ("mixed") (RVal.str ("x")) ("Modem Status Register"),
  mkE ("XUARTPS_SR_OFFSET") 0x0000002C 32 ("ro") (RVal.num 0x00000000) ("Channel Status Register"),
  mkE ("XUARTPS_FIFO_OFFSET") 0x00000030 32 ("mixed") (RVal.num 0x00000000) ("Transmit and Receive FIFO"),
  mkE ("Baud_rate_divider_reg0") 0x00000034 32 ("mixed") (RVal.num 0x0000000F) ("Baud Rate Divider Register"),
  mkE ("Flow_delay_reg0") 0x00000038 32 ("mixed") (RVal.num 0x00000000) ("Flow Control Delay Register"),
  mkE ("Tx_FIFO_trigger_level0") 0x00000044 32 ("mixed") (RVal.num 0x00000020) ("Transmitter FIFO Trigger Level Register")] ("uart")

def qspi : BaseRegister := mkBaseRegister [0xE000D000] [
  mkE ("XQSPIPS_CR_OFFSET") 0x00000000 32 ("mixed") (RVal.num 0x80020000) ("QSPI configuration register"),
  mkE ("XQSPIPS_SR_OFFSET") 0x00000004 32 ("mixed") (RVal.num 0x00000004) ("QSPI interrupt status register"),
  mkE ("XQSPIPS_IER_OFFSET") 0x00000008 32 ("mixed") (RVal.num 0x00000000) ("Interrupt Enable register."),
  mkE ("XQSPIPS_IDR_OFFSET") 0x0000000C 32 ("mixed") (RVal.num 0x00000000) ("Interrupt disable register."),
  mkE ("XQSPIPS_IMR_OFFSET") 0x00000010 32 ("ro") (RVal.num 0x00000000) ("Interrupt mask register"),
  mkE ("XQSPIPS_ER_OFFSET") 0x00000014 32 ("mixed") (RVal.num 0x00000000) ("SPI_Enable Register"),
  mkE ("XQSPIPS_DR_OFFSET") 0x00000018 32 ("rw") (RVal.num 0x00000000) ("Delay Register"),
  mkE ("XQSPIPS_TXD_00_OFFSET") 0x0000001C 32 ("wo") (RVal.num 0x00000000) ("Transmit Data Register. Keyhole addresses for the Transmit data FIFO. See also TXD1-3."),
  mkE ("XQSPIPS_RXD_OFFSET") 0x00000020 32 ("ro") (RVal.num 0x00000000) ("Receive Data Register"),
  mkE ("XQSPIPS_SICR_OFFSET") 0x00000024 32 ("mixed") (RVal.num 0x000000FF) ("Slave Idle Count Register"),
  mkE ("XQSPIPS_TXWR_OFFSET") 0x00000028 32 ("rw") (RVal.num 0x00000001) ("TX_FIFO Threshold Register"),
  mkE ("RX_thres_REG") 0x0000002C 32 ("rw") (RVal.num 0x00000001) ("RX FIFO Threshold Register"),
  mkE ("GPIO") 0x00000030 32 ("rw") (RVal.num 0x00000001) ("General Purpose Inputs and Outputs Register for the Quad-SPI Controller core"),
  mkE ("LPBK_DLY_ADJ") 0x00000038 32 ("rw") (RVal.num 0x0000002D) ("Loopback Master Clock Delay Adjustment Register"),
  mkE ("XQSPIPS_TXD_01_OFFSET") 0x00000080 32 ("wo") (RVal.num 0x00000000) ("Transmit Data Register. Keyhole addresses for the Transmit data FIFO."),
  mkE ("XQSPIPS_TXD_10_OFFSET") 0x00000084 32 ("wo") (RVal.num 0x00000000) ("Transmit Data Register. Keyhole addresses for the Transmit data FIFO."),
  mkE ("XQSPIPS_TXD_11_OFFSET") 0x00000088 32 ("wo") (RVal.num 0x00000000) ("Transmit Data Register. Keyhole addresses for the Transmit data FIFO."),
  mkE ("XQSPIPS_LQSPI_CR_OFFSET") 0x000000A0 32 ("rw") (RVal.str ("x")) ("Configuration Register specifically for the Linear Quad-SPI Controller"),
  mkE ("XQSPIPS_LQSPI_SR_OFFSET") 0x000000A4 9 ("rw") (RVal.num 0x00000000) ("Status Register specifically for the Linear Quad-SPI Controller"),
  mkE ("MOD_ID") 0x000000FC 32 ("rw") (RVal.num 0x01090101) ("Module Identification register")] ("qspi")

def sdio : BaseRegister := mkBaseRegister [0xE0100000, 0xE0101000] [] ("sdio")

/-- Mirrors `zynq7_allregisters = Zynq7_AllRegisters([slcr, devcfg, uart, qspi, sdio])`
(note: `ddrc` is not in the list).  `inited` is `False` at construction. -/
def zynq7_allregisters : Zynq7AllRegisters :=
  { inited := false, baseregisters := [slcr, devcfg, uart, qspi, sdio] }

/-! ### Arithmetic of `zeros` (trailing-zero count) -/

/-- zeros of 0 is the failed assertion. -/
theorem zeros_zero : zeros 0 = none := rfl

/-- zeros of an odd number is 0. -/
theorem zeros_odd (c : Nat) : zeros (2 * c + 1) = some 0 := by
  rw [zeros_unfold]
  have h1 : ¬ (2 * c + 1 = 0) := by omega
  have h2 : (2 * c + 1) % 2 = 1 := by omega
  simp [h1, h2]

/-- zeros steps through one factor of two. -/
theorem zeros_double (m : Nat) (hm : m ≠ 0) :
    zeros (2 * m) = (zeros m).map (fun z => z + 1) := by
  rw [zeros_unfold]
  have h1 : ¬ (2 * m = 0) := by omega
  have h2 : ¬ (2 * m % 2 = 1) := by omega
  have h3 : 2 * m / 2 = m := by omega
  simp [h1, h2, h3]

/-- An odd number shifted left by `z` has exactly `z` trailing zeros. -/
theorem zeros_odd_shift (c z : Nat) : zeros ((2 * c + 1) <<< z) = some z := by
  induction z with
  | zero => rw [Nat.shiftLeft_zero]; exact zeros_odd c
  | succ k ih =>
      have hne : (2 * c + 1) <<< k ≠ 0 := by
        rw [Nat.shiftLeft_eq]
        exact Nat.ne_of_gt (Nat.mul_pos (by omega) (Nat.two_pow_pos k))
      rw [Nat.shiftLeft_succ, zeros_double _ hne, ih]
      rfl

/-- Every nonzero number factors as an odd number shifted by its
trailing-zero count, and `zeros` returns that count. -/
theorem zeros_shape (m : Nat) (hm : m ≠ 0) :
    ∃ z c, zeros m = some z ∧ m = (2 * c + 1) <<< z := by
  induction m using Nat.strong_induction_on with
  | _ m ih =>
    by_cases hodd : m % 2 = 1
    · refine ⟨0, m / 2, ?_, ?_⟩
      · have : m = 2 * (m / 2) + 1 := by omega
        rw [this]; exact zeros_odd (m / 2)
      · rw [Nat.shiftLeft_zero]; omega
    · have hm2 : m / 2 ≠ 0 := by omega
      obtain ⟨z, c, hz, hs⟩ := ih (m / 2) (Nat.div_lt_self (Nat.pos_of_ne_zero hm) (by omega)) hm2
      have hsplit : m = 2 * (m / 2) := by omega
      refine ⟨z + 1, c, ?_, ?_⟩
      · rw [hsplit, zeros_double _ hm2, hz]; rfl
      · rw [hsplit, hs, Nat.shiftLeft_succ]

/-- Converse direction of `zeros_shape` for a known `zeros` value. -/
theorem zeros_eq_shape {m z : Nat} (h : zeros m = some z) :
    ∃ c, m = (2 * c + 1) <<< z := by
  have hm : m ≠ 0 := by
    intro he; subst he; rw [zeros_zero] at h; cases h
  obtain ⟨z', c, hz', hs⟩ := zeros_shape m hm
  rw [hz'] at h
  cases h
  exact ⟨c, hs⟩

/-! ### Bitwise facts -/

/-- Shifting distributes over bitwise or. -/
theorem lor_shiftLeft (a b k : Nat) : (a <<< k) ||| (b <<< k) = (a ||| b) <<< k := by
  apply Nat.eq_of_testBit_eq
  intro i
  simp [Nat.testBit_lor, Nat.testBit_shiftLeft, Bool.and_or_distrib_left]

/-- Bitwise or with an odd number is odd. -/
theorem lor_odd (a y : Nat) : ∃ c, (2 * a + 1) ||| y = 2 * c + 1 := by
  have hb : Nat.testBit ((2 * a + 1) ||| y) 0 = true := by
    rw [Nat.testBit_lor]
    have h1 : Nat.testBit (2 * a + 1) 0 = true := by
      rw [Nat.testBit_zero]
      simp [Nat.add_mul_mod_self_left]
      omega
    simp [h1]
  rw [Nat.testBit_zero] at hb
  have hmod : ((2 * a + 1) ||| y) % 2 = 1 := of_decide_eq_true hb
  exact ⟨((2 * a + 1) ||| y) / 2, by omega⟩

/-- Or-ing two masks keeps the smaller trailing-zero count (case z1 ≤ z2). -/
theorem zeros_lor_le {m1 m2 z1 z2 : Nat} (h1 : zeros m1 = some z1)
    (h2 : zeros m2 = some z2) (hle : z1 ≤ z2) : zeros (m1 ||| m2) = some z1 := by
  obtain ⟨c1, rfl⟩ := zeros_eq_shape h1
  obtain ⟨c2, rfl⟩ := zeros_eq_shape h2
  have hz2 : z2 = (z2 - z1) + z1 := by omega
  rw [hz2, Nat.shiftLeft_add, lor_shiftLeft]
  obtain ⟨c, hc⟩ := lor_odd c1 ((2 * c2 + 1) <<< (z2 - z1))
  rw [hc]
  exact zeros_odd_shift c z1

/-- Or-ing two masks yields the minimum trailing-zero count. -/
theorem zeros_lor {m1 m2 z1 z2 : Nat} (h1 : zeros m1 = some z1)
    (h2 : zeros m2 = some z2) : zeros (m1 ||| m2) = some (min z1 z2) := by
  rcases Nat.le_total z1 z2 with h | h
  · rw [Nat.min_eq_left h]; exact zeros_lor_le h1 h2 h
  · rw [Nat.min_eq_right h, Nat.lor_comm]; exact zeros_lor_le h2 h1 h

/-- The or of two values shifted by at least `z` is a value shifted by `z`. -/
theorem lor_shift_ge (e1 e2 z1 z2 z : Nat) (hz1 : z ≤ z1) (hz2 : z ≤ z2) :
    ∃ e, (e1 <<< z1) ||| (e2 <<< z2) = e <<< z := by
  have h1 : z1 = (z1 - z) + z := by omega
  have h2 : z2 = (z2 - z) + z := by omega
  rw [h1, h2, Nat.shiftLeft_add, Nat.shiftLeft_add, lor_shiftLeft]
  exact ⟨(e1 <<< (z1 - z)) ||| (e2 <<< (z2 - z)), rfl⟩

/-- A left shift is undone exactly by the matching right shift. -/
theorem shiftLeft_shiftRight (e z : Nat) : (e <<< z) >>> z = e := by
  rw [Nat.shiftLeft_eq, Nat.shiftRight_eq_div_pow]
  exact Nat.mul_div_cancel e (Nat.two_pow_pos z)

/-! ### The merge invariant -/

/-- An operation is `good` when its mask is nonzero and its data sits
entirely at or above the lowest set bit of the mask; every operation produced
by the shift pass of `merge` is good, and coalescing preserves it. -/
def GoodOp (op : EmitOp) : Prop :=
  ∃ z e, zeros op.mask = some z ∧ op.data = e <<< z

/-- The coalescing combination of two good operations is good. -/
theorem combine_good {a b : EmitOp} (ha : GoodOp a) (hb : GoodOp b) :
    GoodOp (combine a b) := by
  obtain ⟨z1, e1, hz1, hd1⟩ := ha
  obtain ⟨z2, e2, hz2, hd2⟩ := hb
  obtain ⟨e, he⟩ :=
    lor_shift_ge e1 e2 z1 z2 (min z1 z2) (Nat.min_le_left _ _) (Nat.min_le_right _ _)
  refine ⟨min z1 z2, e, ?_, ?_⟩
  · exact zeros_lor hz1 hz2
  · show a.data ||| b.data = e <<< min z1 z2
    rw [hd1, hd2, he]

/-- A successful shift pass yields a good operation with the same
address, mask and poll flag. -/
theorem shiftOp_good {op op' : EmitOp} (h : shiftOp op = some op') :
    GoodOp op' ∧ op'.addr = op.addr ∧ op'.mask = op.mask ∧ op'.poll = op.poll ∧
      op'.comments = op.comments := by
  unfold shiftOp at h
  cases hz : zeros op.mask with
  | none => rw [hz] at h; cases h
  | some z =>
      rw [hz] at h
      cases h
      exact ⟨⟨z, op.data, hz, rfl⟩, rfl, rfl, rfl, rfl⟩

/-- A good operation unshifts successfully, and shifting the result
restores it exactly. -/
theorem unshift_shift {op : EmitOp} (h : GoodOp op) :
    ∃ op', unshiftOp op = some op' ∧ shiftOp op' = some op := by
  obtain ⟨z, e, hz, hd⟩ := h
  refine ⟨{ op with data := op.data >>> z }, ?_, ?_⟩
  · simp [unshiftOp, hz]
  · simp only [shiftOp, hz, Option.map_some]
    have : (op.data >>> z) <<< z = op.data := by
      rw [hd, shiftLeft_shiftRight]
    simp [this]

/-- A good operation unshifts successfully. -/
theorem unshift_some {op : EmitOp} (h : GoodOp op) :
    ∃ op', unshiftOp op = some op' := by
  obtain ⟨op', h1, _⟩ := unshift_shift h
  exact ⟨op', h1⟩

/-! ### Facts about `optMap` -/

/-- optMap succeeds when every element maps successfully. -/
theorem optMap_some_of_all {f : EmitOp → Option EmitOp} :
    ∀ {l : List EmitOp}, (∀ op ∈ l, ∃ op', f op = some op') →
      ∃ s, optMap f l = some s := by
  intro l
  induction l with
  | nil => intro _; exact ⟨[], rfl⟩
  | cons a as ih =>
      intro h
      obtain ⟨b, hb⟩ := h a (List.mem_cons_self a as)
      obtain ⟨s, hs⟩ := ih (fun op hop => h op (List.mem_cons_of_mem a hop))
      exact ⟨b :: s, by simp [optMap, hb, hs]⟩

/-- optMap only returns the empty list on the empty list. -/
theorem optMap_eq_nil {f : EmitOp → Option EmitOp} {l : List EmitOp}
    (h : optMap f l = some []) : l = [] := by
  cases l with
  | nil => rfl
  | cons a as =>
      unfold optMap at h
      cases hfa : f a with
      | none => rw [hfa] at h; cases h
      | some b =>
          rw [hfa] at h
          cases hm : optMap f as with
          | none => rw [hm] at h; cases h
          | some s => rw [hm] at h; simp at h

/-- Every output of a successful shift pass is good. -/
theorem optMap_shift_good :
    ∀ {l s : List EmitOp}, optMap shiftOp l = some s → ∀ op ∈ s, GoodOp op := by
  intro l
  induction l with
  | nil =>
      intro s h op hop
      cases h
      cases hop
  | cons a as ih =>
      intro s h op hop
      unfold optMap at h
      cases hfa : shiftOp a with
      | none => rw [hfa] at h; cases h
      | some b =>
          rw [hfa] at h
          cases hm : optMap shiftOp as with
          | none => rw [hm] at h; cases h
          | some s' =>
              rw [hm] at h
              cases h
              rcases hop with _ | hop'
              · exact (shiftOp_good hfa).1
              · exact ih hm op (by assumption)

/-- Unshifting a list of good operations can be inverted by the shift
pass: this is the heart of the re-run stability of merge. -/
theorem optMap_roundtrip :
    ∀ {C L : List EmitOp}, (∀ op ∈ C, GoodOp op) →
      optMap unshiftOp C = some L → optMap shiftOp L = some C := by
  intro C
  induction C with
  | nil =>
      intro L _ h
      cases h
      rfl
  | cons c cs ih =>
      intro L hgood h
      unfold optMap at h
      cases hfc : unshiftOp c with
      | none => rw [hfc] at h; cases h
      | some c' =>
          rw [hfc] at h
          cases hm : optMap unshiftOp cs with
          | none => rw [hm] at h; cases h
          | some ls =>
              rw [hm] at h
              cases h
              obtain ⟨c'', h1, h2⟩ := unshift_shift (hgood c (List.mem_cons_self c cs))
              rw [hfc] at h1
              cases h1
              have htl := ih (fun op hop => hgood op (List.mem_cons_of_mem c hop)) hm
              simp [optMap, h2, htl]

/-! ### Facts about `coalesce` -/

/-- Adjacent-distinctness: no two neighbouring operations share both
address and poll flag. -/
def adjOK : List EmitOp → Prop
  | [] => True
  | [_] => True
  | a :: b :: rest => ¬(b.addr = a.addr ∧ b.poll = a.poll) ∧ adjOK (b :: rest)

/-- The coalesce output starts with an operation carrying the address and
poll flag of the accumulator. -/
theorem coalesce_head :
    ∀ (l : List EmitOp) (a : EmitOp),
      ∃ c cs, coalesce a l = c :: cs ∧ c.addr = a.addr ∧ c.poll = a.poll := by
  intro l
  induction l with
  | nil => intro a; exact ⟨a, [], rfl, rfl, rfl⟩
  | cons b rest ih =>
      intro a
      by_cases h : b.addr = a.addr ∧ b.poll = a.poll
      · obtain ⟨c, cs, hc, ha, hp⟩ := ih (combine a b)
        exact ⟨c, cs, by rw [coalesce, if_pos h, hc], ha, hp⟩
      · exact ⟨a, coalesce b rest, by rw [coalesce, if_neg h], rfl, rfl⟩

/-- The coalesce output never repeats an (address, poll) pair in adjacent
positions. -/
theorem coalesce_adjOK : ∀ (l : List EmitOp) (a : EmitOp), adjOK (coalesce a l) := by
  intro l
  induction l with
  | nil => intro a; trivial
  | cons b rest ih =>
      intro a
      by_cases h : b.addr = a.addr ∧ b.poll = a.poll
      · rw [coalesce, if_pos h]; exact ih (combine a b)
      · rw [coalesce, if_neg h]
        obtain ⟨c, cs, hc, ha, hp⟩ := coalesce_head rest b
        rw [hc]
        refine ⟨?_, ?_⟩
        · rw [ha, hp]; exact h
        · rw [← hc]; exact ih b

/-- On an adjacent-distinct list coalesce is the identity. -/
theorem coalesce_id :
    ∀ (l : List EmitOp) (a : EmitOp), adjOK (a :: l) → coalesce a l = a :: l := by
  intro l
  induction l with
  | nil => intro a _; rfl
  | cons b rest ih =>
      intro a h
      rw [coalesce, if_neg h.1, ih b h.2]

/-- coalesce preserves goodness of all operations. -/
theorem coalesce_good :
    ∀ (l : List EmitOp) (a : EmitOp), GoodOp a → (∀ b ∈ l, GoodOp b) →
      ∀ op ∈ coalesce a l, GoodOp op := by
  intro l
  induction l with
  | nil =>
      intro a ha _ op hop
      cases hop with
      | head => exact ha
      | tail _ h => cases h
  | cons b rest ih =>
      intro a ha hl op hop
      by_cases h : b.addr = a.addr ∧ b.poll = a.poll
      · rw [coalesce, if_pos h] at hop
        exact ih (combine a b) (combine_good ha (hl b (List.mem_cons_self b rest)))
          (fun x hx => hl x (List.mem_cons_of_mem b hx)) op hop
      · rw [coalesce, if_neg h] at hop
        rcases hop with _ | hop'
        · exact ha
        · exact ih b (hl b (List.mem_cons_self b rest))
            (fun x hx => hl x (List.mem_cons_of_mem b hx)) op (by assumption)

/-! ### Merge metatheory -/

/-- Re-running `merge` on a successful result returns it unchanged: the
unshift pass is exact on merged data (which is always divisible by the
low power of two of the merged mask), and the coalesce pass finds no adjacent
pair left to merge. -/
theorem merge_fix {l L : List EmitOp} (h : merge l = some L) : merge L = some L := by
  unfold merge at h
  cases hs : optMap shiftOp l with
  | none => rw [hs] at h; cases h
  | some s =>
      rw [hs] at h
      cases s with
      | nil => cases h
      | cons a rest =>
          have h' : optMap unshiftOp (coalesce a rest) = some L := h
          have hgood_s : ∀ op ∈ a :: rest, GoodOp op := optMap_shift_good hs
          have hgoodC : ∀ op ∈ coalesce a rest, GoodOp op :=
            coalesce_good rest a (hgood_s a (List.mem_cons_self a rest))
              (fun b hb => hgood_s b (List.mem_cons_of_mem a hb))
          have hshiftL : optMap shiftOp L = some (coalesce a rest) :=
            optMap_roundtrip hgoodC h'
          have hadj : adjOK (coalesce a rest) := coalesce_adjOK rest a
          obtain ⟨c, cs, hc, _, _⟩ := coalesce_head rest a
          unfold merge
          rw [hshiftL, hc]
          show optMap unshiftOp (coalesce c cs) = some L
          rw [coalesce_id cs c (by rw [← hc]; exact hadj)]
          rw [← hc]
          exact h'

/-- Shifting then unshifting one operation restores it exactly. -/
theorem shift_unshift {op op' : EmitOp} (h : shiftOp op = some op') :
    unshiftOp op' = some op := by
  unfold shiftOp at h
  cases hz : zeros op.mask with
  | none => rw [hz] at h; cases h
  | some z =>
      rw [hz] at h
      cases h
      simp only [unshiftOp, hz, Option.map_some]
      simp [shiftLeft_shiftRight]

/-- A successful shift pass, together with the pointwise relation between
input and output. -/
theorem optMap_shift_rel :
    ∀ {l : List EmitOp}, (∀ op ∈ l, op.mask ≠ 0) →
      ∃ s, optMap shiftOp l = some s ∧
        List.Forall₂ (fun op op' => shiftOp op = some op') l s := by
  intro l
  induction l with
  | nil => intro _; exact ⟨[], rfl, List.Forall₂.nil⟩
  | cons a as ih =>
      intro h
      obtain ⟨z, c, hz, _⟩ := zeros_shape a.mask (h a (List.mem_cons_self a as))
      obtain ⟨s, hs, hrel⟩ := ih (fun op hop => h op (List.mem_cons_of_mem a hop))
      refine ⟨{ a with data := a.data <<< z } :: s, ?_, ?_⟩
      · simp [optMap, shiftOp, hz, hs]
      · exact List.Forall₂.cons (by simp [shiftOp, hz]) hrel

/-- The shift pass preserves adjacent-distinctness (it changes no address
and no poll flag). -/
theorem adjOK_of_rel :
    ∀ {l s : List EmitOp},
      List.Forall₂ (fun op op' => shiftOp op = some op') l s → adjOK l → adjOK s := by
  intro l s h
  induction h with
  | nil => intro _; trivial
  | cons h1 h2 ih =>
      rename_i a b l' s'
      cases h2 with
      | nil => intro _; trivial
      | cons h3 h4 =>
          rename_i a2 b2 l'' s''
          intro hadj
          refine ⟨?_, ih hadj.2⟩
          obtain ⟨_, hb1, _, hp1, _⟩ := shiftOp_good h1
          obtain ⟨_, hb2, _, hp2, _⟩ := shiftOp_good h3
          rw [hb1, hb2, hp1, hp2]
          exact hadj.1

/-- Unshifting the shifted list restores the original list. -/
theorem optMap_unshift_rel :
    ∀ {l s : List EmitOp},
      List.Forall₂ (fun op op' => shiftOp op = some op') l s →
      optMap unshiftOp s = some l := by
  intro l s h
  induction h with
  | nil => rfl
  | cons h1 _ ih =>
      simp [optMap, shift_unshift h1, ih]

/-- On an adjacent-distinct list of nonzero-mask operations, merge is the
identity: the shift is undone exactly and nothing coalesces. -/
theorem merge_of_adjOK {l : List EmitOp} (hne : l ≠ [])
    (hm : ∀ op ∈ l, op.mask ≠ 0) (hadj : adjOK l) : merge l = some l := by
  obtain ⟨s, hs, hrel⟩ := optMap_shift_rel hm
  cases s with
  | nil =>
      exact absurd (optMap_eq_nil hs) hne
  | cons a rest =>
      unfold merge
      rw [hs]
      show optMap unshiftOp (coalesce a rest) = some l
      rw [coalesce_id rest a (adjOK_of_rel hrel hadj)]
      exact optMap_unshift_rel hrel

/-- merge completes on any nonempty list of nonzero-mask operations. -/
theorem merge_total {l : List EmitOp} (hne : l ≠ [])
    (hm : ∀ op ∈ l, op.mask ≠ 0) : ∃ L, merge l = some L := by
  have hsh : ∀ op ∈ l, ∃ op', shiftOp op = some op' := by
    intro op hop
    obtain ⟨z, c, hz, _⟩ := zeros_shape op.mask (hm op hop)
    exact ⟨{ op with data := op.data <<< z }, by simp [shiftOp, hz]⟩
  obtain ⟨s, hs⟩ := optMap_some_of_all hsh
  cases s with
  | nil => exact absurd (optMap_eq_nil hs) hne
  | cons a rest =>
      have hgood_s : ∀ op ∈ a :: rest, GoodOp op := optMap_shift_good hs
      have hgoodC : ∀ op ∈ coalesce a rest, GoodOp op :=
        coalesce_good rest a (hgood_s a (List.mem_cons_self a rest))
          (fun b hb => hgood_s b (List.mem_cons_of_mem a hb))
      obtain ⟨L, hL⟩ := optMap_some_of_all (fun op hop => unshift_some (hgoodC op hop))
      exact ⟨L, by unfold merge; rw [hs]; exact hL⟩

/-- Appending the empty string on the right is the identity. -/
theorem string_append_empty (s : String) : s ++ "" = s := by
  cases s
  show String.mk (_ ++ []) = _
  rw [List.append_nil]

/-- Appending the empty string on the left is the identity. -/
theorem string_empty_append (s : String) : "" ++ s = s := by
  cases s
  show String.mk ([] ++ _) = _
  rw [List.nil_append]

/-! ### Demo registries for concrete witnesses: fields attached through
`insert`, exactly as the external loader would do. -/

/-- The real registry with two fields attached to the slcr `SCL` entry at
`0xf8000000`: `F1` covering bits 7:0 and `F2` covering bits 15:8. -/
def regDemo : Zynq7AllRegisters :=
  ((zynq7_allregisters.insert 0xf8000000 ("F1") 0xFF).2.insert 0xf8000000 ("F2") 0xFF00).2

/-- `regDemo` with a third field on the `SLCR_LOCK` entry at `0xf8000004`. -/
def regDemo2 : Zynq7AllRegisters :=
  (regDemo.insert 0xf8000004 ("F3") 0xF0).2

/-! ### The claims -/

/-- C10: calling `merge` on an empty operation list raises (the
`emit_list[0]` access), modelled as `none`, rather than returning the
empty list. -/
theorem claim10_merge_empty_errors : merge ([] : List EmitOp) = none := rfl

/-- C3: counterexample to "insert returns true only when a field was
actually attached".  Address `0xf8000002` decodes into the slcr block
(`abelong` is true) but sits at no descriptor (`a2e` fails), yet `insert`
returns `True` — and attaches nothing: the registry is unchanged. -/
theorem claim3_insert_counterexample :
    slcr.abelong 0xf8000002 = true ∧
    slcr.a2e 0xf8000002 = none ∧
    zynq7_allregisters.insert 0xf8000002 ("BOGUS_FIELD") 0xFF = (true, zynq7_allregisters) := by
  refine ⟨by decide, by decide, by decide⟩

/-- C2 counterexample: on an unknown FIELD name (block and entry known),
`find` does not return the failure sentinel `(None, None)` — it returns
`(addr, 0)` because `get_field_mask` swallows the `KeyError` — and the
corresponding `add` returns true and appends a mask-0 operation. -/
theorem claim2_counterexample :
    find zynq7_allregisters ("slcr") ("SCL") ("NO_SUCH_FIELD") = some (some (0xf8000000, 0)) ∧
    add [] zynq7_allregisters ("slcr") ("SCL") ("NO_SUCH_FIELD") 7 0 0 =
      some (true, [{ addr := 0xf8000000, mask := 0, data := 7, poll := 0,
                     comments := [(("slcr"), ("SCL"), ("NO_SUCH_FIELD"), 7)] }]) := by
  refine ⟨by decide, by decide⟩

/-- C2 (amended): an unknown block name (nonempty, after instance-digit
stripping) or an unknown entry name makes `find` return the failure
sentinel and the corresponding `add` return false, appending nothing; an
unknown FIELD name, however, resolves to `(addr, 0)` and the
corresponding `add` returns true, appending an operation with mask 0. -/
theorem claim2_find_add_failures :
    (∀ (z : Zynq7AllRegisters) (st : List EmitOp) (b e f : String) (d p fr i : Nat)
        (nm : String), stripDigit b = some (i, nm) → lookupBlock z nm = none →
        find z b e f = some none ∧ add st z b e f d p fr = some (false, st)) ∧
    (∀ (z : Zynq7AllRegisters) (st : List EmitOp) (b e f : String) (d p fr i : Nat)
        (nm : String) (br : BaseRegister),
        stripDigit b = some (i, nm) → lookupBlock z nm = some br → br.n2e e = none →
        find z b e f = some none ∧ add st z b e f d p fr = some (false, st)) ∧
    (∀ (z : Zynq7AllRegisters) (st : List EmitOp) (b e f : String) (d p i : Nat)
        (nm : String) (br : BaseRegister) (ent : Entry) (baddr : Nat),
        stripDigit b = some (i, nm) → lookupBlock z nm = some br →
        br.n2e e = some ent → findAssoc ent.fields (strUpper f) = none →
        br.baseaddrs[i]? = some baddr →
        find z b e f = some (some (baddr + ent.addr, 0)) ∧
        add st z b e f d p 0 =
          some (true, st ++ [{ addr := baddr + ent.addr, mask := 0, data := d,
                               poll := p, comments := [(b, e, f, d)] }])) := by
  refine ⟨?_, ?_, ?_⟩
  · intro z st b e f d p fr i nm hstrip hblk
    have hfind : find z b e f = some none := by
      unfold find
      simp only [hstrip, hblk]
    exact ⟨hfind, by unfold add; rw [hfind]⟩
  · intro z st b e f d p fr i nm br hstrip hblk hent
    have hfind : find z b e f = some none := by
      unfold find
      simp only [hstrip, hblk, hent]
    exact ⟨hfind, by unfold add; rw [hfind]⟩
  · intro z st b e f d p i nm br ent baddr hstrip hblk hent hfld hbase
    have hmask : ent.get_field_mask f = 0 := by
      unfold Entry.get_field_mask
      rw [hfld]
      rfl
    have hfind : find z b e f = some (some (baddr + ent.addr, 0)) := by
      unfold find
      simp only [hstrip, hblk, hent, hmask, hbase]
    refine ⟨hfind, ?_⟩
    unfold add
    rw [hfind]
    rfl

/-- C2 witness: the three failure modes at concrete inputs on the real
registry — unknown block "nosuch", unknown entry "NOENTRY" on slcr,
unknown field "NO_FIELD" on the slcr SCL entry. -/
theorem claim2_witness :
    (find zynq7_allregisters ("nosuch") ("X") ("F") = some none ∧
      add [] zynq7_allregisters ("nosuch") ("X") ("F") 1 0 0 = some (false, [])) ∧
    (find zynq7_allregisters ("slcr") ("NOENTRY") ("F") = some none ∧
      add [] zynq7_allregisters ("slcr") ("NOENTRY") ("F") 1 0 0 = some (false, [])) ∧
    (find zynq7_allregisters ("slcr") ("SCL") ("NO_FIELD") = some (some (0xf8000000 + 0, 0)) ∧
      add [] zynq7_allregisters ("slcr") ("SCL") ("NO_FIELD") 1 0 0 =
        some (true, [] ++ [{ addr := 0xf8000000 + 0, mask := 0, data := 1, poll := 0,
                             comments := [(("slcr"), ("SCL"), ("NO_FIELD"), 1)] }])) := by
  refine ⟨?_, ?_, ?_⟩
  · exact claim2_find_add_failures.1 zynq7_allregisters [] ("nosuch") ("X") ("F") 1 0 0 0
      ("nosuch") (by decide) (by decide)
  · exact claim2_find_add_failures.2.1 zynq7_allregisters [] ("slcr") ("NOENTRY") ("F") 1 0 0 0
      ("slcr") slcr (by decide) (by decide) (by decide)
  · exact claim2_find_add_failures.2.2 zynq7_allregisters [] ("slcr") ("SCL") ("NO_FIELD") 1 0 0
      ("slcr") slcr (mkE ("SCL") 0x00000000 32 ("rw") (RVal.num 0x00000000)
        ("Secure Configuration Lock")) 0xf8000000
      (by decide) (by decide) (by decide) (by decide) (by decide)

/-- C5 counterexample (refutation of the claimed non-idempotence): there
is NO operation list with all masks nonzero on which a second `merge`
changes the result — a second application always returns the first
result unchanged. -/
theorem claim5_counterexample :
    ¬ ∃ l : List EmitOp, (∀ op ∈ l, op.mask ≠ 0) ∧ (merge l).bind merge ≠ merge l := by
  rintro ⟨l, -, hne⟩
  apply hne
  cases h : merge l with
  | none => rfl
  | some L =>
      show merge L = some L
      exact merge_fix h

/-- C5 (amended): `merge` is idempotent.  Whenever a first `merge`
succeeds, running `merge` again on its result returns that result
unchanged: the unshift pass is exact (merged data is always divisible by
the low power of two of the merged mask) and no adjacent pair is left to
coalesce, so re-running `merge` is harmless rather than unsafe. -/
theorem claim5_merge_idempotent {l L : List EmitOp} (h : merge l = some L) :
    merge L = some L :=
  merge_fix h

/-- C5 witness: idempotence at a concrete list that actually coalesces. -/
theorem claim5_witness :
    merge [{ addr := 10, mask := 0xFF, data := 0x12, poll := 0, comments := [] },
           { addr := 10, mask := 0xFF00, data := 0x34, poll := 0, comments := [] }] =
      some [{ addr := 10, mask := 0xFFFF, data := 0x3412, poll := 0, comments := [] }] ∧
    merge [{ addr := 10, mask := 0xFFFF, data := 0x3412, poll := 0, comments := [] }] =
      some [{ addr := 10, mask := 0xFFFF, data := 0x3412, poll := 0, comments := [] }] :=
  ⟨by decide,
   @claim5_merge_idempotent
     [{ addr := 10, mask := 0xFF, data := 0x12, poll := 0, comments := [] },
      { addr := 10, mask := 0xFF00, data := 0x34, poll := 0, comments := [] }]
     [{ addr := 10, mask := 0xFFFF, data := 0x3412, poll := 0, comments := [] }]
     (by decide)⟩

/-- C9: the bit-index computation fails fatally on a zero mask (the
`assert m != 0`, modelled as `none`), and on every nonempty operation
list whose masks are all nonzero `merge` never reaches that failure: it
completes with a result. -/
theorem claim9_zero_mask_fatal :
    zeros 0 = none ∧
    ∀ (l : List EmitOp), l ≠ [] → (∀ op ∈ l, op.mask ≠ 0) → ∃ L, merge l = some L :=
  ⟨rfl, fun _ hne hm => merge_total hne hm⟩

/-- Coalescing a two-element list whose members share address and poll
flag yields the single combined operation. -/
theorem coalesce_pair (a b : EmitOp) (h : b.addr = a.addr ∧ b.poll = a.poll) :
    coalesce a [b] = [combine a b] := by
  rw [coalesce, if_pos h, coalesce]

/-- Unfolding lemma for `merge` once the shift pass is known. -/
theorem merge_cons_eq (l : List EmitOp) (a : EmitOp) (rest : List EmitOp)
    (hs : optMap shiftOp l = some (a :: rest)) :
    merge l = optMap unshiftOp (coalesce a rest) := by
  unfold merge
  rw [hs]

/-- optMap on a singleton. -/
theorem optMap_singleton (f : EmitOp → Option EmitOp) (op op' : EmitOp)
    (h : f op = some op') : optMap f [op] = some [op'] := by
  rw [optMap, h, optMap]
  rfl

/-- Tuple-style constructor for one `emit_list` element. -/
def mkOp (addr mask data poll : Nat) (comments : List Cmt) : EmitOp :=
  { addr := addr, mask := mask, data := data, poll := poll, comments := comments }

/-- Unfolding lemma for a successful `add`. -/
theorem add_ok (z : Zynq7AllRegisters) (st : List EmitOp) (b e f : String)
    (d p fr addr mask : Nat) (h : find z b e f = some (some (addr, mask))) :
    add st z b e f d p fr =
      some (true, st ++
        [mkOp addr (if fr = 0 then mask else 0xFFFFFFFF) d p
          [(b, e, (if fr = 0 then f else ("fullreg")), d)]]) := by
  unfold add mkOp
  rw [h]

/-- C1: two `add`s resolving to the same address X — masks `0x000000FF`
with value `0x12`, then `0x0000FF00` with value `0x34`, same poll flag —
followed by `merge` leave exactly one operation: mask `0x0000FFFF`, data
`0x12 | (0x34 << 8)`, and the two provenance tuples in call order. -/
theorem claim1_merge_two_fields (z : Zynq7AllRegisters) (b1 e1 f1 b2 e2 f2 : String)
    (X p : Nat)
    (h1 : find z b1 e1 f1 = some (some (X, 0xFF)))
    (h2 : find z b2 e2 f2 = some (some (X, 0xFF00))) :
    ∃ l1 l2 : List EmitOp,
      add [] z b1 e1 f1 0x12 p 0 = some (true, l1) ∧
      add l1 z b2 e2 f2 0x34 p 0 = some (true, l2) ∧
      merge l2 =
        some [mkOp X 0xFFFF (0x12 ||| (0x34 <<< 8)) p
          [(b1, e1, f1, 0x12), (b2, e2, f2, 0x34)]] := by
  refine ⟨[mkOp X 0xFF 0x12 p [(b1, e1, f1, 0x12)]],
    [mkOp X 0xFF 0x12 p [(b1, e1, f1, 0x12)], mkOp X 0xFF00 0x34 p [(b2, e2, f2, 0x34)]],
    ?_, ?_, ?_⟩
  · rw [add_ok _ _ _ _ _ _ _ _ _ _ h1]
    simp
  · rw [add_ok _ _ _ _ _ _ _ _ _ _ h2]
    simp
  · have hdata : (0x12 : Nat) ||| (0x34 <<< 8) = 0x3412 := by decide
    rw [hdata]
    have hz1 : zeros 0xFF = some 0 := rfl
    have hz2 : zeros 0xFF00 = some 8 := rfl
    have hz3 : zeros 0xFFFF = some 0 := rfl
    have h1' : shiftOp (mkOp X 0xFF 0x12 p [(b1, e1, f1, 0x12)]) =
        some (mkOp X 0xFF 0x12 p [(b1, e1, f1, 0x12)]) := by
      simp [shiftOp, mkOp, hz1]
    have h2' : shiftOp (mkOp X 0xFF00 0x34 p [(b2, e2, f2, 0x34)]) =
        some (mkOp X 0xFF00 0x3400 p [(b2, e2, f2, 0x34)]) := by
      simp [shiftOp, mkOp, hz2]
    have hshift : optMap shiftOp
        [mkOp X 0xFF 0x12 p [(b1, e1, f1, 0x12)], mkOp X 0xFF00 0x34 p [(b2, e2, f2, 0x34)]] =
        some [mkOp X 0xFF 0x12 p [(b1, e1, f1, 0x12)],
          mkOp X 0xFF00 0x3400 p [(b2, e2, f2, 0x34)]] := by
      rw [optMap, h1', optMap, h2', optMap]
      rfl
    have hcombOp : ∀ (a m d q : Nat) (c : List Cmt) (a' m' d' q' : Nat) (c' : List Cmt),
        combine (mkOp a m d q c) (mkOp a' m' d' q' c') =
          mkOp a (m ||| m') (d ||| d') q (c ++ c') := fun _ _ _ _ _ _ _ _ _ _ => rfl
    have hmor : (0xFF : Nat) ||| 0xFF00 = 0xFFFF := by decide
    have hdor : (0x12 : Nat) ||| 0x3400 = 0x3412 := by decide
    have hcomb : combine (mkOp X 0xFF 0x12 p [(b1, e1, f1, 0x12)])
        (mkOp X 0xFF00 0x3400 p [(b2, e2, f2, 0x34)]) =
        mkOp X 0xFFFF 0x3412 p [(b1, e1, f1, 0x12), (b2, e2, f2, 0x34)] := by
      rw [hcombOp, hmor, hdor, List.singleton_append]
    have hco : coalesce (mkOp X 0xFF 0x12 p [(b1, e1, f1, 0x12)])
        [mkOp X 0xFF00 0x3400 p [(b2, e2, f2, 0x34)]] =
        [mkOp X 0xFFFF 0x3412 p [(b1, e1, f1, 0x12), (b2, e2, f2, 0x34)]] := by
      rw [coalesce_pair (mkOp X 0xFF 0x12 p [(b1, e1, f1, 0x12)])
        (mkOp X 0xFF00 0x3400 p [(b2, e2, f2, 0x34)]) (And.intro rfl rfl), hcomb]
    have hu : unshiftOp (mkOp X 0xFFFF 0x3412 p [(b1, e1, f1, 0x12), (b2, e2, f2, 0x34)]) =
        some (mkOp X 0xFFFF 0x3412 p [(b1, e1, f1, 0x12), (b2, e2, f2, 0x34)]) := by
      simp [unshiftOp, mkOp, hz3]
    rw [merge_cons_eq _ _ _ hshift, hco, optMap_singleton _ _ _ hu]

/-- C1 witness: the scenario at the concrete registry `regDemo`, whose
slcr `SCL` entry carries fields F1 (mask `0xFF`) and F2 (mask `0xFF00`). -/
theorem claim1_witness :
    ∃ l1 l2 : List EmitOp,
      add [] regDemo ("slcr") ("SCL") ("F1") 0x12 0 0 = some (true, l1) ∧
      add l1 regDemo ("slcr") ("SCL") ("F2") 0x34 0 0 = some (true, l2) ∧
      merge l2 =
        some [mkOp 0xf8000000 0xFFFF (0x12 ||| (0x34 <<< 8)) 0
          [(("slcr"), ("SCL"), ("F1"), 0x12), (("slcr"), ("SCL"), ("F2"), 0x34)]] :=
  claim1_merge_two_fields regDemo ("slcr") ("SCL") ("F1") ("slcr") ("SCL") ("F2")
    0xf8000000 0 (by decide) (by decide)

/-- C4: coalescing is adjacency-only.  `add` at A, then at a different
address B, then at A again, followed by `merge`, yields exactly three
operations — the two non-adjacent A-operations are not merged (indeed
`merge` returns the three-element list unchanged). -/
theorem claim4_adjacency_only (z : Zynq7AllRegisters)
    (b1 e1 f1 b2 e2 f2 b3 e3 f3 : String)
    (A B m1 m2 m3 d1 d2 d3 p1 p2 p3 : Nat)
    (h1 : find z b1 e1 f1 = some (some (A, m1)))
    (h2 : find z b2 e2 f2 = some (some (B, m2)))
    (h3 : find z b3 e3 f3 = some (some (A, m3)))
    (hAB : A ≠ B) (hm1 : m1 ≠ 0) (hm2 : m2 ≠ 0) (hm3 : m3 ≠ 0) :
    ∃ l1 l2 l3 : List EmitOp,
      add [] z b1 e1 f1 d1 p1 0 = some (true, l1) ∧
      add l1 z b2 e2 f2 d2 p2 0 = some (true, l2) ∧
      add l2 z b3 e3 f3 d3 p3 0 = some (true, l3) ∧
      l3.length = 3 ∧ merge l3 = some l3 := by
  refine ⟨[mkOp A m1 d1 p1 [(b1, e1, f1, d1)]],
    [mkOp A m1 d1 p1 [(b1, e1, f1, d1)], mkOp B m2 d2 p2 [(b2, e2, f2, d2)]],
    [mkOp A m1 d1 p1 [(b1, e1, f1, d1)], mkOp B m2 d2 p2 [(b2, e2, f2, d2)],
     mkOp A m3 d3 p3 [(b3, e3, f3, d3)]],
    ?_, ?_, ?_, rfl, ?_⟩
  · rw [add_ok _ _ _ _ _ _ _ _ _ _ h1]
    simp
  · rw [add_ok _ _ _ _ _ _ _ _ _ _ h2]
    simp
  · rw [add_ok _ _ _ _ _ _ _ _ _ _ h3]
    simp
  · apply merge_of_adjOK
    · exact List.cons_ne_nil _ _
    · intro op hop
      rcases List.mem_cons.mp hop with rfl | hop2
      · exact hm1
      rcases List.mem_cons.mp hop2 with rfl | hop3
      · exact hm2
      rcases List.mem_cons.mp hop3 with rfl | hop4
      · exact hm3
      · cases hop4
    · exact ⟨fun hcon => hAB hcon.1.symm, fun hcon => hAB hcon.1, trivial⟩

/-- C4 witness: the scenario at `regDemo2` — `SCL.F1` (address
`0xf8000000`), `SLCR_LOCK.F3` (address `0xf8000004`), `SCL.F2` again. -/
theorem claim4_witness :
    ∃ l1 l2 l3 : List EmitOp,
      add [] regDemo2 ("slcr") ("SCL") ("F1") 1 0 0 = some (true, l1) ∧
      add l1 regDemo2 ("slcr") ("SLCR_LOCK") ("F3") 2 0 0 = some (true, l2) ∧
      add l2 regDemo2 ("slcr") ("SCL") ("F2") 3 0 0 = some (true, l3) ∧
      l3.length = 3 ∧ merge l3 = some l3 :=
  claim4_adjacency_only regDemo2 ("slcr") ("SCL") ("F1") ("slcr") ("SLCR_LOCK") ("F3")
    ("slcr") ("SCL") ("F2") 0xf8000000 0xf8000004 0xFF 0xF0 0xFF00 1 2 3 0 0 0
    (by decide) (by decide) (by decide) (by decide) (by decide) (by decide) (by decide)


/-- C6: for every block in the registry, every descriptor and every
instance base address, resolving the physical address `base + offset` by
address returns exactly that descriptor. -/
theorem claim6_resolve_by_address :
    ∀ br ∈ zynq7_allregisters.baseregisters, ∀ e ∈ br.entries, ∀ b ∈ br.baseaddrs,
      br.a2e (b + e.addr) = some e := by decide

/-- C6 witness: the first descriptor of the uart block resolves at the second
instance base `0xe0001000`. -/
theorem claim6_witness :
    uart.a2e (0xe0001000 + (mkE ("XUARTPS_CR_OFFSET") 0x00000000 32 ("mixed")
      (RVal.num 0x00000128) ("UART Control Register")).addr) =
    some (mkE ("XUARTPS_CR_OFFSET") 0x00000000 32 ("mixed")
      (RVal.num 0x00000128) ("UART Control Register")) :=
  claim6_resolve_by_address uart (by decide)
    (mkE ("XUARTPS_CR_OFFSET") 0x00000000 32 ("mixed")
      (RVal.num 0x00000128) ("UART Control Register")) (by decide)
    0xe0001000 (by decide)

/-- C7: a successful `add` with fullreg set stores mask `0xFFFFFFFF`
regardless of the native mask of the field, and emitting that (non-poll)
operation renders the unconditional full-write form — `EMIT_WRITE` in the
procedural encoding, `mwr -force` in the script encoding — never the
masked-write form. -/
theorem claim7_fullreg_write (z : Zynq7AllRegisters) (st : List EmitOp)
    (b e f : String) (d p fr addr mask : Nat)
    (hf : find z b e f = some (some (addr, mask))) (hfr : fr ≠ 0) :
    ∃ op : EmitOp,
      add st z b e f d p fr = some (true, st ++ [op]) ∧ op.mask = 0xFFFFFFFF ∧
      (p = 0 →
        emit Fmt.c false [op] =
          some ("EMIT_WRITE(0X" ++ hex8 addr ++ ", 0x" ++ hex8 d ++ "U),\n") ∧
        emit Fmt.tcl false [op] =
          some ("mwr -force 0X" ++ hex8 addr ++ " 0x" ++ hex8 d ++ "\n")) := by
  refine ⟨mkOp addr 0xFFFFFFFF d p [(b, e, ("fullreg"), d)], ?_, rfl, ?_⟩
  · rw [add_ok _ _ _ _ _ _ _ _ _ _ hf]
    simp [if_neg hfr, mkOp]
  · intro hp
    subst hp
    have hz : zeros 0xFFFFFFFF = some 0 := rfl
    constructor
    · simp [emit, emitOp, mkOp, hz, Nat.shiftLeft_zero, string_append_empty,
        string_empty_append]
    · simp [emit, emitOp, mkOp, hz, Nat.shiftLeft_zero, string_append_empty,
        string_empty_append]

/-- C7 witness: fullreg add on the real registry at slcr `SCL` (whose
field table is empty — the native mask 0 is overridden to all-ones). -/
theorem claim7_witness :
    ∃ op : EmitOp,
      add [] zynq7_allregisters ("slcr") ("SCL") ("ANY") 9 0 1 = some (true, [] ++ [op]) ∧
      op.mask = 0xFFFFFFFF ∧
      ((0 : Nat) = 0 →
        emit Fmt.c false [op] =
          some ("EMIT_WRITE(0X" ++ hex8 0xf8000000 ++ ", 0x" ++ hex8 9 ++ "U),\n") ∧
        emit Fmt.tcl false [op] =
          some ("mwr -force 0X" ++ hex8 0xf8000000 ++ " 0x" ++ hex8 9 ++ "\n")) :=
  claim7_fullreg_write zynq7_allregisters [] ("slcr") ("SCL") ("ANY") 9 0 1
    0xf8000000 0 (by decide) (by decide)

/-- C8: a non-poll operation with mask `0x00FF0000` and stored value
`0x5` renders — after the left shift by the lowest set bit index of the mask —
with data field `00050000` (8 hex digits), in both encodings. -/
theorem claim8_shift_render (addr : Nat) (cs : List Cmt) :
    emit Fmt.c false
      [{ addr := addr, mask := 0x00FF0000, data := 0x5, poll := 0, comments := cs }] =
      some ("EMIT_MASKWRITE(0X" ++ hex8 addr ++ ", 0x00FF0000U, 0x00050000U),\n") ∧
    emit Fmt.tcl false
      [{ addr := addr, mask := 0x00FF0000, data := 0x5, poll := 0, comments := cs }] =
      some ("mask_write 0X" ++ hex8 addr ++ " 0x00FF0000 0x00050000\n") := by
  have hz : zeros 0xFF0000 = some 16 := rfl
  have h1 : hex8 0xFF0000 = "00FF0000" := by decide
  have h2 : hex8 0x50000 = "00050000" := by decide
  constructor <;>
    simp [emit, emitOp, hz, h1, h2, string_append_empty, string_empty_append,
      String.append_assoc]

/-- C9 witness: merge completes on a concrete nonempty nonzero-mask list. -/
theorem claim9_witness :
    ∃ L, merge [{ addr := 4, mask := 0xF0, data := 3, poll := 0, comments := [] }] = some L :=
  claim9_zero_mask_fatal.2 [{ addr := 4, mask := 0xF0, data := 3, poll := 0, comments := [] }]
    (by decide) (by decide)

end GenZ
